import Mathlib

/-!
Verification of the QuantPulse/scalpez streaming trading pipeline.

This file gives a shallow embedding in Lean 4 of the parts of the code base
that the verified claims are about:

* `backend/app/services/candle_builder.py`        (tick → OHLC candles)
* `backend/app/services/indicator_service.py` and
  `backend/app/state/indicator_state.py`          (incremental EMA / RSI)
* `backend/app/services/support_resistance_service.py` (S/R queries, filters)
* `backend/app/services/signal_engine.py`         (multi-confirmation signals)
* `backend/app/services/trade_simulator.py`,
  `backend/app/state/trade_state.py` and
  `backend/app/domain/entities/trade.py`          (paper-trade lifecycle)
* `backend/app/services/stats_engine.py`          (performance analytics)

Python floats are modelled by exact rationals (`ℚ`); Python dicts keyed by
symbol are modelled by total functions `String → Option _`; `uuid.uuid4()`
and `time.time()` are modelled by explicit oracle inputs (`fresh_id`, `now`)
so that any dependence of an output on randomness or the wall clock is
visible as a dependence on those parameters.  Logging and the diagnostic
counters of the services (`_total_evaluated`, `_stats`, …) are omitted:
they never influence the values the claims are about.
-/

/- The Batteries rational primitives are `@[irreducible]`, which blocks
`decide` on concrete `ℚ` computations; restore the ordinary definitional
reducibility (this affects elaboration only — the kernel ignores
reducibility attributes, so nothing about the trusted checking changes). -/
set_option allowUnsafeReducibility true

set_option maxRecDepth 8000

attribute [local semireducible] Rat.add Rat.mul Rat.sub Rat.inv Rat.ofScientific

namespace QuantPulse

/-- Last `n` elements of a list (Python `xs[-n:]` for `n ≥ 1`). -/
def lastN {α : Type} (n : ℕ) (xs : List α) : List α :=
  xs.drop (xs.length - n)

/-- Python `round` ties-to-even on a rational, to an integer. -/
def round_half_even (x : ℚ) : ℤ :=
  let f := ⌊x⌋
  let r := x - (f : ℚ)
  if r < 1/2 then f
  else if 1/2 < r then f + 1
  else if f % 2 = 0 then f else f + 1

/-- Python `round(x, d)` (ties-to-even at `d` decimal digits). -/
def py_round (d : ℕ) (x : ℚ) : ℚ :=
  ((round_half_even (x * (10:ℚ)^d) : ℚ)) / (10:ℚ)^d

/-! ## Domain entities: Tick and Candle

`backend/domain/entities/candle.py` — immutable OHLC candle (frozen
dataclass).  The optional bid/ask fields of a tick are never read by the
pipeline and are omitted. -/

/-- A broker tick (symbol, epoch seconds, quote price). -/
structure Tick where
  symbol : String
  epoch : ℚ
  quote : ℚ
deriving DecidableEq

/-- A closed OHLC candle.  `timestamp` is the open time, `interval` the
duration in seconds (an `int` in the source, embedded in `ℚ`).  The field
`open` is a Lean keyword, hence `open_`. -/
structure Candle where
  symbol : String
  timestamp : ℚ
  open_ : ℚ
  high : ℚ
  low : ℚ
  close : ℚ
  tick_count : ℕ
  interval : ℚ
deriving DecidableEq

/-! ## Candle builder — `backend/app/services/candle_builder.py` -/

/-- The mutable candle under construction (`_BuildingCandle`). -/
structure BuildingCandle where
  symbol : String
  open_time : ℚ
  close_time : ℚ
  open_ : ℚ
  high : ℚ
  low : ℚ
  close : ℚ
  tick_count : ℕ
deriving DecidableEq

/-- `_BuildingCandle.update`.  The source initialises `high := -inf` and
`low := +inf`, so for the very first tick `max`/`min` both give `price`;
the `tick_count = 0` branch reproduces that behaviour exactly. -/
def BuildingCandle.update (b : BuildingCandle) (price : ℚ) : BuildingCandle :=
  if b.tick_count = 0 then
    { b with open_ := price, high := price, low := price,
             close := price, tick_count := 1 }
  else
    { b with high := max b.high price, low := min b.low price,
             close := price, tick_count := b.tick_count + 1 }

/-- `_BuildingCandle.freeze`: the source stores
`interval = int(close_time - open_time)`; both times are aligned integral
multiples of the interval so the conversion is exact. -/
def BuildingCandle.freeze (b : BuildingCandle) : Candle :=
  { symbol := b.symbol, timestamp := b.open_time, open_ := b.open_,
    high := b.high, low := b.low, close := b.close,
    tick_count := b.tick_count, interval := b.close_time - b.open_time }

/-- `CandleBuilder._align_time`: `floor(epoch / interval) * interval`. -/
def align_time (interval : ℚ) (epoch : ℚ) : ℚ :=
  (⌊epoch / interval⌋ : ℚ) * interval

/-- A fresh building candle for the bucket of `epoch`, seeded with the tick
(the source constructs `_BuildingCandle(...)` then calls `update(price)`). -/
def new_building (interval : ℚ) (symbol : String) (epoch price : ℚ) :
    BuildingCandle :=
  let open_time := align_time interval epoch
  BuildingCandle.update
    { symbol := symbol, open_time := open_time,
      close_time := open_time + interval,
      open_ := 0, high := 0, low := 0, close := 0, tick_count := 0 } price

/-- `CandleBuilder.process_tick` for one symbol's slot of `_building`
(the builder keys its slots by `tick.symbol`; a same-symbol tick stream
only ever touches this one slot). -/
def process_tick (interval : ℚ) (building : Option BuildingCandle)
    (t : Tick) : Option Candle × BuildingCandle :=
  match building with
  | none => (none, new_building interval t.symbol t.epoch t.quote)
  | some b =>
    if t.epoch < b.close_time then
      (none, b.update t.quote)
    else
      (some b.freeze, new_building interval t.symbol t.epoch t.quote)

/-- Fold a tick stream through the builder, collecting closed candles in
emission order together with the final building slot. -/
def run_builder (interval : ℚ) :
    List Tick → Option BuildingCandle → List Candle × Option BuildingCandle
  | [], b => ([], b)
  | t :: ts, b =>
    let (closed, b') := process_tick interval b t
    let (rest, bf) := run_builder interval ts (some b')
    (closed.toList ++ rest, bf)

/-! ## Indicator engine — `backend/app/state/indicator_state.py` and
`backend/app/services/indicator_service.py` -/

/-- `EMA_FAST_PERIOD` (9). -/
def EMA_FAST_PERIOD : ℕ := 9
/-- `EMA_SLOW_PERIOD` (21). -/
def EMA_SLOW_PERIOD : ℕ := 21
/-- `RSI_PERIOD` (14). -/
def RSI_PERIOD : ℕ := 14
/-- `MIN_WARMUP = max(EMA_SLOW_PERIOD, RSI_PERIOD) + 1 = 22`. -/
def MIN_WARMUP : ℕ := max EMA_SLOW_PERIOD RSI_PERIOD + 1

/-- `alpha_fast = 2 / (9 + 1)`. -/
def alpha_fast : ℚ := 2 / (9 + 1)
/-- `alpha_slow = 2 / (21 + 1)`. -/
def alpha_slow : ℚ := 2 / (21 + 1)

/-- `SymbolIndicatorState` (one symbol's incremental indicator state).
The per-indicator period fields are the module constants above. -/
structure SymbolIndicatorState where
  symbol : String
  warmup_count : ℕ
  ema_fast : Option ℚ
  ema_slow : Option ℚ
  rsi : Option ℚ
  avg_gain : Option ℚ
  avg_loss : Option ℚ
  prev_close : Option ℚ
  warmup_closes : List ℚ
deriving DecidableEq

/-- `SymbolIndicatorState.is_warmed_up`. -/
def SymbolIndicatorState.is_warmed_up (st : SymbolIndicatorState) : Bool :=
  MIN_WARMUP ≤ st.warmup_count

/-- Fresh per-symbol state (`SymbolIndicatorState(symbol=symbol)`). -/
def init_indicator_state (symbol : String) : SymbolIndicatorState :=
  { symbol := symbol, warmup_count := 0, ema_fast := none, ema_slow := none,
    rsi := none, avg_gain := none, avg_loss := none, prev_close := none,
    warmup_closes := [] }

/-- `IndicatorService._compute_rsi` with its explicit edge cases. -/
def compute_rsi (avg_gain avg_loss : ℚ) : ℚ :=
  if avg_gain = 0 ∧ avg_loss = 0 then 50
  else if avg_loss = 0 then 100
  else if avg_gain = 0 then 0
  else 100 - 100 / (1 + avg_gain / avg_loss)

/-- `IndicatorService._update_ema_fast` (no-op before the seed exists). -/
def update_ema_fast (st : SymbolIndicatorState) (close : ℚ) :
    SymbolIndicatorState :=
  match st.ema_fast with
  | none => st
  | some e => { st with ema_fast := some (close * alpha_fast + e * (1 - alpha_fast)) }

/-- `IndicatorService._update_ema_slow`. -/
def update_ema_slow (st : SymbolIndicatorState) (close : ℚ) :
    SymbolIndicatorState :=
  match st.ema_slow with
  | none => st
  | some e => { st with ema_slow := some (close * alpha_slow + e * (1 - alpha_slow)) }

/-- `IndicatorService._update_rsi` (Wilder smoothing). -/
def update_rsi (st : SymbolIndicatorState) (close : ℚ) :
    SymbolIndicatorState :=
  match st.avg_gain, st.avg_loss, st.prev_close with
  | some g, some l, some pc =>
    let period : ℚ := (RSI_PERIOD : ℚ)
    let delta := close - pc
    let gain := if 0 < delta then delta else 0
    let loss := if delta < 0 then -delta else 0
    let g' := (g * (period - 1) + gain) / period
    let l' := (l * (period - 1) + loss) / period
    { st with avg_gain := some g', avg_loss := some l',
              rsi := some (compute_rsi g' l') }
  | _, _, _ => st

/-- Sum of the positive deltas of consecutive closes (`total_gain` loop of
`_seed_rsi`). -/
def total_gain : List ℚ → ℚ
  | a :: b :: rest => (if 0 < b - a then b - a else 0) + total_gain (b :: rest)
  | _ => 0

/-- Sum of the absolute negative deltas of consecutive closes
(`total_loss` loop of `_seed_rsi`). -/
def total_loss : List ℚ → ℚ
  | a :: b :: rest => (if b - a ≤ 0 then a - b else 0) + total_loss (b :: rest)
  | _ => 0

/-- `IndicatorService._seed_rsi`: SMA of gains/losses over the last
`RSI_PERIOD` deltas (`RSI_PERIOD + 1` closes), then the initial RSI. -/
def seed_rsi (st : SymbolIndicatorState) (closes : List ℚ) :
    SymbolIndicatorState :=
  let relevant := lastN (RSI_PERIOD + 1) closes
  let g := total_gain relevant / (RSI_PERIOD : ℚ)
  let l := total_loss relevant / (RSI_PERIOD : ℚ)
  { st with avg_gain := some g, avg_loss := some l,
            rsi := some (compute_rsi g l) }

/-- `IndicatorService._try_seed_indicators`: seed each indicator exactly
once when its warm-up count is reached, update it incrementally past the
seed.  The source mutates `state` in sequence; the embedding chains the
updated states in the same order (EMA 9, then EMA 21, then RSI). -/
def try_seed_indicators (st : SymbolIndicatorState) (close : ℚ) :
    SymbolIndicatorState :=
  let closes := st.warmup_closes
  let count := st.warmup_count
  let sma_fast := (lastN EMA_FAST_PERIOD closes).sum / (EMA_FAST_PERIOD : ℚ)
  let sma_slow := (lastN EMA_SLOW_PERIOD closes).sum / (EMA_SLOW_PERIOD : ℚ)
  let st1 :=
    if st.ema_fast = none ∧ count = EMA_FAST_PERIOD then
      { st with ema_fast := some sma_fast }
    else if st.ema_fast ≠ none ∧ EMA_FAST_PERIOD < count then
      update_ema_fast st close
    else st
  let st2 :=
    if st1.ema_slow = none ∧ count = EMA_SLOW_PERIOD then
      { st1 with ema_slow := some sma_slow }
    else if st1.ema_slow ≠ none ∧ EMA_SLOW_PERIOD < count then
      update_ema_slow st1 close
    else st1
  if st2.avg_gain = none ∧ count = RSI_PERIOD + 1 ∧
      RSI_PERIOD + 1 ≤ closes.length then
    seed_rsi st2 closes
  else if st2.avg_gain ≠ none ∧ RSI_PERIOD + 1 < count then
    update_rsi st2 close
  else st2

/-- The indicator snapshot dict consumed by the signal engine: the keys
`ema_9`, `ema_21`, `rsi_14` of `SymbolIndicatorState.to_dict` (the other
keys of that dict are never read by the engine). -/
structure IndicatorSnapshot where
  ema_9 : Option ℚ
  ema_21 : Option ℚ
  rsi_14 : Option ℚ
deriving DecidableEq

/-- `SymbolIndicatorState.to_dict`: values rounded as in the source
(`round(·, 5)` for EMAs, `round(·, 2)` for RSI). -/
def SymbolIndicatorState.to_dict (st : SymbolIndicatorState) :
    IndicatorSnapshot :=
  { ema_9 := st.ema_fast.map (py_round 5),
    ema_21 := st.ema_slow.map (py_round 5),
    rsi_14 := st.rsi.map (py_round 2) }

/-- `IndicatorService.update` for one closed candle's close price: returns
the updated state and the published snapshot (`None` during warm-up). -/
def indicator_update (st : SymbolIndicatorState) (close : ℚ) :
    SymbolIndicatorState × Option IndicatorSnapshot :=
  let st := { st with warmup_count := st.warmup_count + 1 }
  if ¬ st.is_warmed_up then
    let st := { st with warmup_closes := st.warmup_closes ++ [close] }
    let st := try_seed_indicators st close
    ({ st with prev_close := some close }, none)
  else if st.warmup_closes ≠ [] then
    -- warm-up → steady-state transition (happens exactly once)
    let st := { st with warmup_closes := st.warmup_closes ++ [close] }
    let st := try_seed_indicators st close
    let st := { st with warmup_closes := [] }
    let st := { st with prev_close := some close }
    (st, some st.to_dict)
  else
    let st := update_ema_fast st close
    let st := update_ema_slow st close
    let st := update_rsi st close
    let st := { st with prev_close := some close }
    (st, some st.to_dict)

/-- Feed a list of closes through `indicator_update` from a fresh state. -/
def run_indicator (symbol : String) (closes : List ℚ) :
    SymbolIndicatorState :=
  closes.foldl (fun st c => (indicator_update st c).1)
    (init_indicator_state symbol)

/-! ## Support/Resistance — `backend/app/services/support_resistance_service.py`

`SymbolSRState` for one symbol: the two bounded deques of swing levels,
most recent last (claims only query the state, so the deque bound of
`update` is not needed here).  The configuration mirrors the constructor
keywords. -/

/-- S/R configuration (constructor keywords of `SupportResistanceService`). -/
structure SRConfig where
  sr_tolerance_pct : ℚ
  breakout_candle_mult : ℚ
  consolidation_candles : ℕ
  consolidation_atr_mult : ℚ
deriving DecidableEq

/-- Defaults as wired from `settings` (`signal_sr_tolerance_pct = 0.0015`,
`signal_breakout_candle_mult = 1.2`, `signal_consolidation_candles = 10`,
`signal_consolidation_atr_mult = 2.0`). -/
def default_sr_config : SRConfig :=
  { sr_tolerance_pct := 15/10000, breakout_candle_mult := 12/10,
    consolidation_candles := 10, consolidation_atr_mult := 2 }

/-- `SymbolSRState`: swing levels as `(price, timestamp)` pairs. -/
structure SRState where
  swing_highs : List (ℚ × ℚ)
  swing_lows : List (ℚ × ℚ)
deriving DecidableEq

/-- `get_nearest_support`: greatest stored swing low strictly below `price`. -/
def get_nearest_support (sr : SRState) (price : ℚ) : Option ℚ :=
  (sr.swing_lows.filterMap
    (fun p => if p.1 < price then some p.1 else none)).max?

/-- `get_nearest_resistance`: least stored swing high strictly above `price`. -/
def get_nearest_resistance (sr : SRState) (price : ℚ) : Option ℚ :=
  (sr.swing_highs.filterMap
    (fun p => if price < p.1 then some p.1 else none)).min?

/-- `get_last_swing_low`. -/
def get_last_swing_low (sr : SRState) : Option ℚ :=
  sr.swing_lows.getLast?.map Prod.fst

/-- `get_last_swing_high`. -/
def get_last_swing_high (sr : SRState) : Option ℚ :=
  sr.swing_highs.getLast?.map Prod.fst

/-- `is_bounce_on_support`. -/
def is_bounce_on_support (cfg : SRConfig) (c : Candle)
    (support : Option ℚ) : Bool :=
  match support with
  | none => false
  | some s =>
    let tolerance := s * cfg.sr_tolerance_pct
    decide (c.low ≤ s + tolerance) && decide (s < c.close) &&
      decide (c.open_ < c.close)

/-- `is_rejection_at_resistance`. -/
def is_rejection_at_resistance (cfg : SRConfig) (c : Candle)
    (resistance : Option ℚ) : Bool :=
  match resistance with
  | none => false
  | some r =>
    let tolerance := r * cfg.sr_tolerance_pct
    decide (r - tolerance ≤ c.high) && decide (c.close < r) &&
      decide (c.close < c.open_)

/-- `is_breakout_above`. -/
def is_breakout_above (cfg : SRConfig) (c : Candle)
    (resistance : Option ℚ) (avg_range : ℚ) : Bool :=
  match resistance with
  | none => false
  | some r =>
    if avg_range ≤ 0 then false
    else
      decide (r < c.close) &&
        decide (avg_range * cfg.breakout_candle_mult < c.high - c.low)

/-- `is_breakout_below`. -/
def is_breakout_below (cfg : SRConfig) (c : Candle)
    (support : Option ℚ) (avg_range : ℚ) : Bool :=
  match support with
  | none => false
  | some s =>
    if avg_range ≤ 0 then false
    else
      decide (c.close < s) &&
        decide (avg_range * cfg.breakout_candle_mult < c.high - c.low)

/-- `is_consolidating` over the last `consolidation_candles` candles of the
buffer (conservatively `true` with insufficient data or zero ranges).
For `n ≥ 1` the source's `list(buffer)[-n:]` is `lastN n`. -/
def is_consolidating (cfg : SRConfig) (buffer : List Candle) : Bool :=
  let n := cfg.consolidation_candles
  let recent := lastN n buffer
  if recent.length < n then true
  else
    match recent with
    | [] => true
    | c0 :: cs =>
      let total_range := ((c0 :: cs).map Candle.high).foldl max c0.high -
        ((c0 :: cs).map Candle.low).foldl min c0.low
      let avg_candle_range :=
        ((c0 :: cs).map (fun c => c.high - c.low)).sum / (n : ℚ)
      if avg_candle_range = 0 then true
      else decide (total_range < avg_candle_range * cfg.consolidation_atr_mult)

/-- `compute_avg_range` (mean `high - low` of the last `period` candles,
`0.0` on an empty buffer). -/
def compute_avg_range (buffer : List Candle) (period : ℕ := 10) : ℚ :=
  let recent := lastN period buffer
  match recent with
  | [] => 0
  | _ => (recent.map (fun c => c.high - c.low)).sum / (recent.length : ℚ)

/-! ## Signal entity — `backend/domain/entities/signal.py`

In the source `Signal.generate_id()` draws from `uuid.uuid4()` and the
`timestamp` field is filled with `time.time()`; both enter the embedding
as explicit oracle arguments (`fresh_id`, `now`) of the signal engine. -/

/-- Immutable trading signal. -/
structure Signal where
  id : String
  symbol : String
  signal_type : String
  entry : ℚ
  stop_loss : ℚ
  take_profit : ℚ
  rr : ℚ
  timestamp : ℚ
  candle_timestamp : ℚ
  conditions : List String
  confidence : ℕ
  estimated_duration : ℚ
deriving DecidableEq

/-! ## Signal engine — `backend/app/services/signal_engine.py`

The ML filter is disabled (`ml_enabled=False` is the constructor default
and `HAS_ML and ml_inference is not None` is required to turn it on), so
`_apply_ml_filter` is never reached and is not embedded.  The diagnostic
counters and logging are omitted. -/

/-- Condition tag `ema_cross`. -/
def COND_EMA_CROSS : String := "ema_cross"
/-- Condition tag `ema_trend`. -/
def COND_EMA_TREND : String := "ema_trend"
/-- Condition tag `rsi_reversal`. -/
def COND_RSI_REVERSAL : String := "rsi_reversal"
/-- Condition tag `sr_bounce`. -/
def COND_SR_BOUNCE : String := "sr_bounce"
/-- Condition tag `breakout`. -/
def COND_BREAKOUT : String := "breakout"

/-- Signal engine configuration (constructor keywords of `SignalEngine`). -/
structure SignalConfig where
  min_confirmations : ℕ
  rr_target : ℚ        -- source keyword: `rr_ratio`
  min_rr : ℚ
  rsi_oversold : ℚ
  rsi_overbought : ℚ
  min_sl_pct : ℚ
  cooldown_candles : ℕ
deriving DecidableEq

/-- Values wired from `settings` in `main.py` / `container.py`
(`signal_min_confirmations = 2`, `signal_rr_ratio = 2.0`,
`signal_min_rr = 1.0`, `signal_rsi_oversold = 35`,
`signal_rsi_overbought = 65`, `signal_min_sl_pct = 0.0002`,
`signal_cooldown_candles = 3`). -/
def default_signal_config : SignalConfig :=
  { min_confirmations := 2, rr_target := 2, min_rr := 1,
    rsi_oversold := 35, rsi_overbought := 65, min_sl_pct := 2/10000,
    cooldown_candles := 3 }

/-- Buy-side tags collected by the five `_check_*` routines, in the order
the source appends them (`ema_cross`, `ema_trend`, `rsi_reversal`,
`sr_bounce`, `breakout`).  Each routine touches at most one side per tag,
so the two sides can be collected independently. -/
def buy_conditions_of (cfg : SignalConfig) (srcfg : SRConfig)
    (ema_9 ema_21 rsi : ℚ) (prev : IndicatorSnapshot) (candle : Candle)
    (support resistance : Option ℚ) (avg_range : ℚ) : List String :=
  (match prev.ema_9, prev.ema_21 with
   | some p9, some p21 =>
     if p9 - p21 < 0 ∧ 0 < ema_9 - ema_21 then [COND_EMA_CROSS] else []
   | _, _ => []) ++
  (if ema_21 < ema_9 then [COND_EMA_TREND] else []) ++
  (match prev.rsi_14 with
   | some prev_rsi =>
     if rsi < cfg.rsi_oversold ∧ prev_rsi < rsi then [COND_RSI_REVERSAL] else []
   | none => []) ++
  (if is_bounce_on_support srcfg candle support then [COND_SR_BOUNCE] else []) ++
  (if is_breakout_above srcfg candle resistance avg_range then [COND_BREAKOUT] else [])

/-- Sell-side tags, in the source's append order. -/
def sell_conditions_of (cfg : SignalConfig) (srcfg : SRConfig)
    (ema_9 ema_21 rsi : ℚ) (prev : IndicatorSnapshot) (candle : Candle)
    (support resistance : Option ℚ) (avg_range : ℚ) : List String :=
  (match prev.ema_9, prev.ema_21 with
   | some p9, some p21 =>
     if 0 < p9 - p21 ∧ ema_9 - ema_21 < 0 then [COND_EMA_CROSS] else []
   | _, _ => []) ++
  (if ema_9 < ema_21 then [COND_EMA_TREND] else []) ++
  (match prev.rsi_14 with
   | some prev_rsi =>
     if cfg.rsi_overbought < rsi ∧ rsi < prev_rsi then [COND_RSI_REVERSAL] else []
   | none => []) ++
  (if is_rejection_at_resistance srcfg candle resistance then [COND_SR_BOUNCE] else []) ++
  (if is_breakout_below srcfg candle support avg_range then [COND_BREAKOUT] else [])

/-- Step 6 of `SignalEngine.evaluate` (lines 337–356): pick the direction
from the two condition sets — `if len(buy) >= min: BUY elif len(sell) >=
min: SELL else: None`. -/
def choose_direction (min_confirmations : ℕ)
    (buy_conditions sell_conditions : List String) :
    Option (String × List String) :=
  if min_confirmations ≤ buy_conditions.length then
    some ("BUY", buy_conditions)
  else if min_confirmations ≤ sell_conditions.length then
    some ("SELL", sell_conditions)
  else
    none

/-- The risk numbers computed by `_compute_risk_and_generate` before the
`Signal` is constructed: stop loss, take profit, realised RR and the
advisory duration estimate.  `none` on any of the rejection paths (no valid
swing level, SL too tight, RR below minimum). -/
def risk_params (cfg : SignalConfig) (sr : SRState) (candle : Candle)
    (signal_type : String) (avg_range : ℚ) : Option (ℚ × ℚ × ℚ × ℚ) :=
  let entry := candle.close
  let levels? : Option ℚ :=
    if signal_type = "BUY" then
      match get_nearest_support sr entry with
      | some s => some s
      | none => get_last_swing_low sr
    else
      match get_nearest_resistance sr entry with
      | some r => some r
      | none => get_last_swing_high sr
  match levels? with
  | none => none
  | some sl_level =>
    if signal_type = "BUY" ∧ entry ≤ sl_level then none
    else if signal_type ≠ "BUY" ∧ sl_level ≤ entry then none
    else
      let stop_loss := sl_level
      let sl_distance := if signal_type = "BUY" then entry - stop_loss
                         else stop_loss - entry
      let tp_distance := sl_distance * cfg.rr_target
      let take_profit := if signal_type = "BUY" then entry + tp_distance
                         else entry - tp_distance
      let sl_pct := if entry ≠ 0 then sl_distance / entry else 0
      if sl_pct < cfg.min_sl_pct then none
      else
        let actual_rr := if 0 < sl_distance then tp_distance / sl_distance else 0
        if actual_rr < cfg.min_rr then none
        else
          let est_dur := if 0 < avg_range then
              tp_distance / avg_range * candle.interval / 60 else 0
          some (stop_loss, take_profit, actual_rr, est_dur)

/-- `SignalEngine._compute_risk_and_generate`: on success builds the
immutable `Signal`.  `fresh_id` stands for `Signal.generate_id()`
(a `uuid.uuid4()` draw) and `now` for `time.time()`; the estimated
duration is stored as `round(est_dur, 1)`. -/
def compute_risk_and_generate (cfg : SignalConfig) (sr : SRState)
    (candle : Candle) (signal_type : String) (conditions : List String)
    (symbol : String) (avg_range : ℚ) (now : ℚ) (fresh_id : String) :
    Option Signal :=
  (risk_params cfg sr candle signal_type avg_range).map (fun p =>
    { id := fresh_id, symbol := symbol, signal_type := signal_type,
      entry := candle.close, stop_loss := p.1, take_profit := p.2.1,
      rr := p.2.2.1, timestamp := now, candle_timestamp := candle.timestamp,
      conditions := conditions, confidence := conditions.length,
      estimated_duration := py_round 1 p.2.2.2 })

/-- The per-symbol mutable state of `SignalEngine`: `_prev_indicators`,
`_last_signal_ts` and `_recent_signals`, each a dict keyed by symbol. -/
structure EngineState where
  prev_indicators : String → Option IndicatorSnapshot
  last_signal_ts : String → Option ℚ
  recent_signals : String → List Signal

/-- Fresh engine state (all dicts empty). -/
def init_engine_state : EngineState :=
  { prev_indicators := fun _ => none, last_signal_ts := fun _ => none,
    recent_signals := fun _ => [] }

/-- `self._prev_indicators[symbol] = indicators`. -/
def record_prev (st : EngineState) (symbol : String)
    (inds : IndicatorSnapshot) : EngineState :=
  { st with prev_indicators :=
      fun s => if s = symbol then some inds else st.prev_indicators s }

/-- `_store_recent_signal` (deque, `maxlen=50`). -/
def push_recent (st : EngineState) (s : Signal) : EngineState :=
  { st with recent_signals :=
      fun sym => if sym = s.symbol then lastN 50 (st.recent_signals sym ++ [s])
                 else st.recent_signals sym }

/-- Steps 1-6 of `SignalEngine.evaluate` (everything before
`_compute_risk_and_generate`): pre-conditions, cooldown, consolidation
filter, condition collection, direction.  These steps never consult the
clock or the RNG; on success the chosen direction, its condition set and
the `avg_range` handed on to the risk step are returned.  Every return
path records the current snapshot as the previous one (the source updates
`_prev_indicators[symbol]` on each of its return paths). -/
def evaluate_decision (cfg : SignalConfig) (srcfg : SRConfig) (sr : SRState)
    (st : EngineState) (candle : Candle) (inds : IndicatorSnapshot)
    (buffer : List Candle) : Option (String × List String × ℚ) :=
  match inds.ema_9, inds.ema_21, inds.rsi_14 with
  | some ema_9, some ema_21, some rsi =>
    match st.prev_indicators candle.symbol with
    | none => none
    | some prev =>
      if prev.ema_9 = none then none
      else
        -- cooldown (dynamic on the evaluated candle's interval)
        let cooldown := (cfg.cooldown_candles : ℚ) * candle.interval
        let last_ts := (st.last_signal_ts candle.symbol).getD 0
        if candle.timestamp - last_ts < cooldown then none
        else if is_consolidating srcfg buffer then none
        else
          let price := candle.close
          let support := get_nearest_support sr price
          let resistance := get_nearest_resistance sr price
          let avg_range := compute_avg_range buffer
          let buy_conditions := buy_conditions_of cfg srcfg ema_9 ema_21 rsi
            prev candle support resistance avg_range
          let sell_conditions := sell_conditions_of cfg srcfg ema_9 ema_21 rsi
            prev candle support resistance avg_range
          (choose_direction cfg.min_confirmations
            buy_conditions sell_conditions).map
            (fun d => (d.1, d.2, avg_range))
  | _, _, _ => none

/-- `SignalEngine.evaluate` on a closed candle: the decision steps above,
then the risk computation and, on emission, the state updates of step 8
(`_last_signal_ts[symbol] = candle.timestamp`, `_store_recent_signal`).
Step 5's `_prev_indicators[symbol] = indicators` happens on every path. -/
def evaluate (cfg : SignalConfig) (srcfg : SRConfig) (sr : SRState)
    (st : EngineState) (candle : Candle) (inds : IndicatorSnapshot)
    (buffer : List Candle) (now : ℚ) (fresh_id : String) :
    Option Signal × EngineState :=
  let symbol := candle.symbol
  let st1 := record_prev st symbol inds
  match evaluate_decision cfg srcfg sr st candle inds buffer with
  | none => (none, st1)
  | some (signal_type, conditions, avg_range) =>
    match compute_risk_and_generate cfg sr candle signal_type
        conditions symbol avg_range now fresh_id with
    | none => (none, st1)
    | some s =>
      let st2 := { st1 with last_signal_ts :=
        fun sy => if sy = symbol then some candle.timestamp
                  else st1.last_signal_ts sy }
      (some s, push_recent st2 s)

/-- One evaluation's inputs as handed over by the orchestrator
(`ProcessTickUseCase._process_tf_candle`): the S/R state at that moment,
the closed candle, its indicator snapshot, the TF buffer, and the two
oracle values consumed on emission. -/
structure EvalInput where
  sr : SRState
  candle : Candle
  inds : IndicatorSnapshot
  buffer : List Candle
  now : ℚ
  fresh_id : String

/-- `evaluate` on a bundled input. -/
def evaluate' (cfg : SignalConfig) (srcfg : SRConfig) (st : EngineState)
    (inp : EvalInput) : Option Signal × EngineState :=
  evaluate cfg srcfg inp.sr st inp.candle inp.inds inp.buffer inp.now
    inp.fresh_id

/-- Run a sequence of evaluations, collecting the outputs in order. -/
def run_outputs (cfg : SignalConfig) (srcfg : SRConfig) (st : EngineState) :
    List EvalInput → List (Option Signal) × EngineState
  | [] => ([], st)
  | inp :: rest =>
    let (o, st') := evaluate' cfg srcfg st inp
    let (os, stf) := run_outputs cfg srcfg st' rest
    (o :: os, stf)

/-! ## Trade entity — `backend/app/domain/entities/trade.py` -/

/-- `TradeStatus`. -/
inductive TradeStatus where
  | PENDING | OPEN | PROFIT | LOSS | EXPIRED
deriving DecidableEq

/-- A status is terminal (`SimulatedTrade.is_closed`). -/
def TradeStatus.is_closed : TradeStatus → Bool
  | .PROFIT | .LOSS | .EXPIRED => true
  | _ => false

/-- `SimulatedTrade`.  The constructor draws `id` from `uuid.uuid4()`,
embedded as the explicit `fresh_id` argument of `mk_trade`. -/
structure SimulatedTrade where
  id : String
  symbol : String
  signal_type : String
  signal_id : String
  signal_entry : ℚ
  stop_loss : ℚ
  take_profit : ℚ
  rr : ℚ
  entry_price : ℚ
  close_price : ℚ
  status : TradeStatus
  open_timestamp : ℚ
  close_timestamp : ℚ
  pnl_percent : ℚ
  duration_seconds : ℚ
  conditions : List String
  max_duration_seconds : ℚ
deriving DecidableEq

/-- `SimulatedTrade.__init__` from a signal (as `TradeSimulator.open_trade`
fills it): status `PENDING`, real prices and result fields zeroed. -/
def mk_trade (fresh_id : String) (s : Signal) (max_duration_seconds : ℚ) :
    SimulatedTrade :=
  { id := fresh_id, symbol := s.symbol, signal_type := s.signal_type,
    signal_id := s.id, signal_entry := s.entry, stop_loss := s.stop_loss,
    take_profit := s.take_profit, rr := s.rr,
    entry_price := 0, close_price := 0, status := .PENDING,
    open_timestamp := 0, close_timestamp := 0, pnl_percent := 0,
    duration_seconds := 0, conditions := s.conditions,
    max_duration_seconds := max_duration_seconds }

/-- `SimulatedTrade.activate` (PENDING → OPEN).  The source asserts
`status == PENDING`; the simulator only calls it in that state. -/
def SimulatedTrade.activate (t : SimulatedTrade) (entry_price timestamp : ℚ) :
    SimulatedTrade :=
  { t with entry_price := entry_price, open_timestamp := timestamp,
           status := .OPEN }

/-- `SimulatedTrade.close` (OPEN → terminal) with the PnL computation
(`pnl` stays `0.0` when `entry_price == 0`). -/
def SimulatedTrade.close (t : SimulatedTrade) (close_price : ℚ)
    (status : TradeStatus) (timestamp : ℚ) : SimulatedTrade :=
  let pnl :=
    if t.entry_price ≠ 0 then
      if t.signal_type = "BUY" then
        (close_price - t.entry_price) / t.entry_price * 100
      else
        (t.entry_price - close_price) / t.entry_price * 100
    else t.pnl_percent
  { t with close_price := close_price, status := status,
           close_timestamp := timestamp,
           duration_seconds := timestamp - t.open_timestamp,
           pnl_percent := pnl }

/-! ## Trade state — `backend/app/state/trade_state.py` -/

/-- `MAX_HISTORY` (closed trades retained per symbol). -/
def MAX_HISTORY : ℕ := 500

/-- `TradeStateManager`: the active slot and the closed history, both
dicts keyed by symbol. -/
structure TradeState where
  active : String → Option SimulatedTrade
  closed : String → List SimulatedTrade

/-- Fresh manager (both dicts empty). -/
def init_trade_state : TradeState :=
  { active := fun _ => none, closed := fun _ => [] }

/-- `register_trade`: compare-and-set on the symbol's slot. -/
def register_trade (st : TradeState) (t : SimulatedTrade) :
    Bool × TradeState :=
  if (st.active t.symbol).isSome then (false, st)
  else
    (true, { st with active :=
      fun s => if s = t.symbol then some t else st.active s })

/-- `archive_trade`: drop the trade from the active slot (only when the
ids match) and append it to the bounded closed history. -/
def archive_trade (st : TradeState) (t : SimulatedTrade) : TradeState :=
  let active' : String → Option SimulatedTrade := fun s =>
    if s = t.symbol then
      match st.active t.symbol with
      | some a => if a.id = t.id then none else st.active s
      | none => none
    else st.active s
  { active := active',
    closed := fun s =>
      if s = t.symbol then lastN MAX_HISTORY (st.closed s ++ [t])
      else st.closed s }

/-! ## Trade simulator — `backend/app/services/trade_simulator.py` -/

/-- `TradeSimulator.open_trade`: reject when the symbol already has an
active trade, otherwise create a PENDING trade and register it. -/
def open_trade (st : TradeState) (s : Signal) (fresh_id : String)
    (max_duration_seconds : ℚ) : Option SimulatedTrade × TradeState :=
  if (st.active s.symbol).isSome then (none, st)
  else
    let t := mk_trade fresh_id s max_duration_seconds
    match register_trade st t with
    | (false, st') => (none, st')
    | (true, st') => (some t, st')

/-- `TradeSimulator.evaluate_tick`: activate a PENDING trade, else run the
OPEN checks strictly in the source's order — (a) expiry, (b) stop loss,
(c) take profit — closing, archiving and returning the trade on the first
match.  (The source's `assert trade.is_open` after the PENDING branch can
only see PENDING/OPEN trades in reachable states; a terminal trade in the
slot would abort, embedded as a no-op fall-through.) -/
def evaluate_tick (st : TradeState) (symbol : String) (price timestamp : ℚ) :
    Option SimulatedTrade × TradeState :=
  match st.active symbol with
  | none => (none, st)
  | some trade =>
    if trade.status = .PENDING then
      let t' := trade.activate price timestamp
      (none, { st with active :=
        fun s => if s = symbol then some t' else st.active s })
    else if trade.status = .OPEN then
      if trade.max_duration_seconds ≤ timestamp - trade.open_timestamp then
        let t' := trade.close price .EXPIRED timestamp
        (some t', archive_trade st t')
      else if trade.signal_type = "BUY" ∧ price ≤ trade.stop_loss then
        let t' := trade.close price .LOSS timestamp
        (some t', archive_trade st t')
      else if trade.signal_type = "SELL" ∧ trade.stop_loss ≤ price then
        let t' := trade.close price .LOSS timestamp
        (some t', archive_trade st t')
      else if trade.signal_type = "BUY" ∧ trade.take_profit ≤ price then
        let t' := trade.close price .PROFIT timestamp
        (some t', archive_trade st t')
      else if trade.signal_type = "SELL" ∧ price ≤ trade.take_profit then
        let t' := trade.close price .PROFIT timestamp
        (some t', archive_trade st t')
      else (none, st)
    else (none, st)

/-- The operations through which the simulator mutates the trade
subsystem: creating a trade from a signal and evaluating a tick. -/
inductive TradeOp where
  | open_from_signal (s : Signal) (fresh_id : String)
  | tick (symbol : String) (price timestamp : ℚ)

/-- Apply one operation (`max_dur` is the simulator's fixed
`settings.max_trade_duration * 60`). -/
def apply_op (max_dur : ℚ) (st : TradeState) : TradeOp → TradeState
  | .open_from_signal s fresh_id => (open_trade st s fresh_id max_dur).2
  | .tick symbol price timestamp => (evaluate_tick st symbol price timestamp).2

/-- All states reachable from the fresh manager. -/
def run_ops (max_dur : ℚ) (ops : List TradeOp) : TradeState :=
  ops.foldl (apply_op max_dur) init_trade_state

/-- Every trade the subsystem holds for a symbol: the active slot plus the
closed history. -/
def trades_of (st : TradeState) (symbol : String) : List SimulatedTrade :=
  (st.active symbol).toList ++ st.closed symbol

/-- Number of the symbol's trades whose status is PENDING or OPEN. -/
def active_count (st : TradeState) (symbol : String) : ℕ :=
  (trades_of st symbol).countP
    (fun t => t.status = .PENDING ∨ t.status = .OPEN)

/-! ## Stats engine — `backend/app/services/stats_engine.py` -/

/-- `PerformanceMetrics` (value object). -/
structure PerformanceMetrics where
  total_trades : ℕ
  wins : ℕ
  losses : ℕ
  expired : ℕ
  win_rate : ℚ
  loss_rate : ℚ
  profit_factor : ℚ
  expectancy : ℚ
  avg_rr_real : ℚ
  avg_duration : ℚ
  max_drawdown : ℚ
  equity_curve : List ℚ
  gross_profit : ℚ
  gross_loss : ℚ
  avg_win : ℚ
  avg_loss : ℚ
  best_trade : ℚ
  worst_trade : ℚ
  total_pnl : ℚ
deriving DecidableEq

/-- `_EMPTY_METRICS` (`PerformanceMetrics()` with all-zero defaults). -/
def empty_metrics : PerformanceMetrics :=
  { total_trades := 0, wins := 0, losses := 0, expired := 0, win_rate := 0,
    loss_rate := 100, profit_factor := 0, expectancy := 0, avg_rr_real := 0,
    avg_duration := 0, max_drawdown := 0, equity_curve := [],
    gross_profit := 0, gross_loss := 0, avg_win := 0, avg_loss := 0,
    best_trade := 0, worst_trade := 0, total_pnl := 0 }

/-- The single-pass accumulators of `StatsEngine.compute`.  The Python
sentinels `float('-inf')` / `float('inf')` for `best_pnl` / `worst_pnl`
are embedded as `none` (always replaced by the first comparison). -/
structure StatsAcc where
  wins : ℕ
  losses : ℕ
  expired : ℕ
  gross_profit : ℚ
  gross_loss : ℚ
  sum_duration : ℚ
  best_pnl : Option ℚ
  worst_pnl : Option ℚ
  equity_points : List ℚ
  cumulative_equity : ℚ
  peak_equity : ℚ
  max_dd : ℚ

/-- Accumulators at loop entry. -/
def stats_acc0 : StatsAcc :=
  { wins := 0, losses := 0, expired := 0, gross_profit := 0, gross_loss := 0,
    sum_duration := 0, best_pnl := none, worst_pnl := none,
    equity_points := [], cumulative_equity := 0, peak_equity := 0,
    max_dd := 0 }

/-- One iteration of the `for trade in trades` loop of `compute`. -/
def stats_step (acc : StatsAcc) (t : SimulatedTrade) : StatsAcc :=
  let pnl := t.pnl_percent
  -- (1) classify
  let acc : StatsAcc :=
    if t.status = .PROFIT then { acc with wins := acc.wins + 1 }
    else if t.status = .LOSS then { acc with losses := acc.losses + 1 }
    else if t.status = .EXPIRED then
      let acc := { acc with expired := acc.expired + 1 }
      if 0 < pnl then { acc with wins := acc.wins + 1 }
      else if pnl < 0 then { acc with losses := acc.losses + 1 }
      else acc
    else acc
  -- (2) accumulate PnL
  let acc : StatsAcc :=
    if 0 < pnl then { acc with gross_profit := acc.gross_profit + pnl }
    else if pnl < 0 then { acc with gross_loss := acc.gross_loss + |pnl| }
    else acc
  -- (3) extremes
  let acc : StatsAcc :=
    if acc.best_pnl.all (fun b => decide (b < pnl)) then
      { acc with best_pnl := some pnl }
    else acc
  let acc : StatsAcc :=
    if acc.worst_pnl.all (fun w => decide (pnl < w)) then
      { acc with worst_pnl := some pnl }
    else acc
  -- (4) duration
  let acc := { acc with sum_duration := acc.sum_duration + t.duration_seconds }
  -- (5) equity curve + max drawdown inline
  let cum := acc.cumulative_equity + pnl
  let acc := { acc with cumulative_equity := cum,
                        equity_points := acc.equity_points ++ [cum] }
  let acc : StatsAcc :=
    if acc.peak_equity < cum then { acc with peak_equity := cum } else acc
  let dd := acc.peak_equity - acc.cumulative_equity
  if acc.max_dd < dd then { acc with max_dd := dd } else acc

/-- `StatsEngine.compute`: the single pass plus the guarded derived
ratios. -/
def compute (trades : List SimulatedTrade) : PerformanceMetrics :=
  match trades with
  | [] => empty_metrics
  | _ =>
    let n := trades.length
    let acc := trades.foldl stats_step stats_acc0
    let win_count := acc.wins
    let loss_count := acc.losses
    let win_rate := if 0 < n then (win_count : ℚ) / (n : ℚ) * 100 else 0
    let loss_rate := 100 - win_rate
    let profit_factor :=
      if 0 < acc.gross_loss then acc.gross_profit / acc.gross_loss else 0
    let avg_win := if 0 < win_count then acc.gross_profit / (win_count : ℚ) else 0
    let avg_loss := if 0 < loss_count then acc.gross_loss / (loss_count : ℚ) else 0
    let expectancy :=
      if 0 < n then
        (win_count : ℚ) / (n : ℚ) * avg_win - (loss_count : ℚ) / (n : ℚ) * avg_loss
      else 0
    let avg_rr_real := if 0 < avg_loss then avg_win / avg_loss else 0
    let avg_duration := if 0 < n then acc.sum_duration / (n : ℚ) else 0
    { total_trades := n, wins := win_count, losses := loss_count,
      expired := acc.expired, win_rate := win_rate, loss_rate := loss_rate,
      profit_factor := profit_factor, expectancy := expectancy,
      avg_rr_real := avg_rr_real, avg_duration := avg_duration,
      max_drawdown := acc.max_dd, equity_curve := acc.equity_points,
      gross_profit := acc.gross_profit, gross_loss := acc.gross_loss,
      avg_win := avg_win, avg_loss := avg_loss,
      best_trade := (acc.best_pnl).getD 0, worst_trade := (acc.worst_pnl).getD 0,
      total_pnl := acc.gross_profit - acc.gross_loss }

/-! ## Concrete scenario data

Explicit inputs used by the counterexamples and witnesses below.  All of
them describe plausible reachable situations of the pipeline (candles with
`high ≥ max(open, close) ≥ min(open, close) ≥ low`, S/R levels around the
candle's close, a ten-candle active-TF buffer whose last element is the
evaluated candle). -/

/-- S/R state with one swing low at 95 and one swing high at 100.05. -/
def sr_tie : SRState :=
  { swing_highs := [(2001/20, 1)], swing_lows := [(95, 1)] }

/-- Previous indicator snapshot: EMA9 below EMA21, RSI at 80. -/
def snap_prev : IndicatorSnapshot :=
  { ema_9 := some 9, ema_21 := some 10, rsi_14 := some 80 }

/-- Current indicator snapshot: EMA9 above EMA21 (a fresh bullish cross),
RSI at 70 and falling. -/
def snap_tie : IndicatorSnapshot :=
  { ema_9 := some 11, ema_21 := some 10, rsi_14 := some 70 }

/-- Nine history candles for the active-TF buffer (each of range 1/2,
drifting upward so the market is not consolidating). -/
def history_candles : List Candle :=
  (List.range 9).map (fun i =>
    { symbol := "R", timestamp := 300 * (i : ℚ),
      open_ := 96 + (i : ℚ) / 2, high := 96 + (i : ℚ) / 2,
      low := (191/2) + (i : ℚ) / 2, close := 96 + (i : ℚ) / 2,
      tick_count := 5, interval := 300 })

/-- The evaluated 5m candle of the tie scenario: bearish
(`close < open`), high brushing the resistance at 100.05, close 100. -/
def candle_tie : Candle :=
  { symbol := "R", timestamp := 10000, open_ := 1001/10, high := 1002/10,
    low := 199/2, close := 100, tick_count := 10, interval := 300 }

/-- Buffer for the tie scenario (history plus the evaluated candle). -/
def buffer_tie : List Candle := history_candles ++ [candle_tie]

/-- Engine state in which the previous snapshot for `R` is `snap_prev`
(one earlier evaluation has already stored it). -/
def st_tie : EngineState := record_prev init_engine_state "R" snap_prev

/-- The same market situation confirmed by a 1h candle at epoch 20000
(used for the first emission of the cooldown trace). -/
def candle_h1 : Candle :=
  { symbol := "R", timestamp := 20000, open_ := 1001/10, high := 1002/10,
    low := 199/2, close := 100, tick_count := 10, interval := 3600 }

/-- Second confirming candle of the cooldown trace: a bullish 5m candle
at epoch 21000 — only 1000 s after `candle_h1` — whose low bounced on the
95 support. -/
def candle_m5 : Candle :=
  { symbol := "R", timestamp := 21000, open_ := 99, high := 1002/10,
    low := 951/10, close := 100, tick_count := 10, interval := 300 }

/-- Snapshot at the second confirming candle: EMA9 still above EMA21
(no fresh cross), RSI flat at 70. -/
def snap_m5 : IndicatorSnapshot :=
  { ema_9 := some 11, ema_21 := some 10, rsi_14 := some 70 }

/-- Buffer at the second confirming candle. -/
def buffer_m5 : List Candle := history_candles ++ [candle_m5]

/-- First evaluation of the cooldown trace (oracle values 500 / `sig1`). -/
def inp_h1 : EvalInput :=
  { sr := sr_tie, candle := candle_h1, inds := snap_tie,
    buffer := history_candles ++ [candle_h1], now := 500, fresh_id := "sig1" }

/-- Second evaluation of the cooldown trace. -/
def inp_m5 : EvalInput :=
  { sr := sr_tie, candle := candle_m5, inds := snap_m5,
    buffer := buffer_m5, now := 501, fresh_id := "sig2" }

/-- The SL condition of the OPEN checks: `BUY: price ≤ SL`,
`SELL: price ≥ SL`. -/
def sl_hit (t : SimulatedTrade) (price : ℚ) : Prop :=
  (t.signal_type = "BUY" ∧ price ≤ t.stop_loss) ∨
  (t.signal_type = "SELL" ∧ t.stop_loss ≤ price)

instance (t : SimulatedTrade) (price : ℚ) : Decidable (sl_hit t price) := by
  unfold sl_hit; infer_instance

/-- The TP condition of the OPEN checks: `BUY: price ≥ TP`,
`SELL: price ≤ TP`. -/
def tp_hit (t : SimulatedTrade) (price : ℚ) : Prop :=
  (t.signal_type = "BUY" ∧ t.take_profit ≤ price) ∨
  (t.signal_type = "SELL" ∧ price ≤ t.take_profit)

instance (t : SimulatedTrade) (price : ℚ) : Decidable (tp_hit t price) := by
  unfold tp_hit; infer_instance

/-- Every trade in the closed history of every symbol is terminal. -/
def closed_terminal (st : TradeState) : Prop :=
  ∀ sym t, t ∈ st.closed sym → t.status.is_closed = true

/-- A trade counts toward `wins` in `StatsEngine.compute`: PROFIT, or
EXPIRED with positive PnL. -/
def is_win (t : SimulatedTrade) : Bool :=
  t.status = TradeStatus.PROFIT ||
    (t.status = TradeStatus.EXPIRED && decide (0 < t.pnl_percent))

/-- A trade counts toward `losses`: LOSS, or EXPIRED with negative PnL. -/
def is_loss (t : SimulatedTrade) : Bool :=
  t.status = TradeStatus.LOSS ||
    (t.status = TradeStatus.EXPIRED && decide (t.pnl_percent < 0))

/-! ### Remaining concrete scenario data -/

/-- The four ticks of the candle-formation scenario (base interval 5 s). -/
def c8_ticks : List Tick :=
  [⟨"S", 2/10, 100⟩, ⟨"S", 15/10, 101⟩, ⟨"S", 49/10, 199/2⟩,
   ⟨"S", 51/10, 102⟩]

/-- The fifteen warm-up closes of the RSI scenario. -/
def c6_closes : List ℚ :=
  [10, 11, 10, 11, 12, 11, 12, 13, 12, 13, 14, 13, 14, 15, 14]

/-- A warmed-up indicator state whose Wilder averages stand in ratio 2:1
(RSI 200/3) and whose last close was 12. -/
def st_c7 : SymbolIndicatorState :=
  { symbol := "S", warmup_count := 22, ema_fast := some 10,
    ema_slow := some 10, rsi := some (compute_rsi 2 1), avg_gain := some 2,
    avg_loss := some 1, prev_close := some 12, warmup_closes := [] }

/-- `st_c7` after `k` further closes all equal to 12. -/
def c7_iter (k : ℕ) : SymbolIndicatorState :=
  (fun st => (indicator_update st 12).1)^[k] st_c7

/-- An OPEN BUY trade whose stop loss (100) lies above its take profit
(90), so that one tick can satisfy both the SL and the TP condition. -/
def trade_both : SimulatedTrade :=
  { id := "t1", symbol := "R", signal_type := "BUY", signal_id := "sig1",
    signal_entry := 100, stop_loss := 100, take_profit := 90, rr := 2,
    entry_price := 501/5, close_price := 0, status := .OPEN,
    open_timestamp := 0, close_timestamp := 0, pnl_percent := 0,
    duration_seconds := 0, conditions := [COND_EMA_CROSS],
    max_duration_seconds := 1800 }

/-- Trade state holding `trade_both` in the `R` slot. -/
def st_both : TradeState :=
  { active := fun s => if s = "R" then some trade_both else none,
    closed := fun _ => [] }

/-- A closed EXPIRED trade with positive PnL. -/
def trade_exp_pos : SimulatedTrade :=
  { id := "t2", symbol := "R", signal_type := "BUY", signal_id := "sig2",
    signal_entry := 100, stop_loss := 99, take_profit := 102, rr := 2,
    entry_price := 501/5, close_price := 201/2, status := .EXPIRED,
    open_timestamp := 0, close_timestamp := 1800, pnl_percent := 1/2,
    duration_seconds := 1800, conditions := [COND_EMA_TREND],
    max_duration_seconds := 1800 }

/-- A closed LOSS trade. -/
def trade_lost : SimulatedTrade :=
  { id := "t3", symbol := "R", signal_type := "BUY", signal_id := "sig3",
    signal_entry := 100, stop_loss := 99, take_profit := 102, rr := 2,
    entry_price := 100, close_price := 99, status := .LOSS,
    open_timestamp := 0, close_timestamp := 60, pnl_percent := -1,
    duration_seconds := 60, conditions := [COND_EMA_TREND],
    max_duration_seconds := 1800 }

/-- Two closed trades for the stats witness. -/
def c9_trades : List SimulatedTrade := [trade_exp_pos, trade_lost]

/-- The buy set of the tie scenario, with the exact arguments
`SignalEngine.evaluate` passes to the checks on `candle_tie`. -/
def buy_tie : List String :=
  buy_conditions_of default_signal_config default_sr_config 11 10 70
    snap_prev candle_tie (get_nearest_support sr_tie candle_tie.close)
    (get_nearest_resistance sr_tie candle_tie.close)
    (compute_avg_range buffer_tie)

/-- The sell set of the tie scenario. -/
def sell_tie : List String :=
  sell_conditions_of default_signal_config default_sr_config 11 10 70
    snap_prev candle_tie (get_nearest_support sr_tie candle_tie.close)
    (get_nearest_resistance sr_tie candle_tie.close)
    (compute_avg_range buffer_tie)

/-! ## Theorems -/

/-- C8: from fresh state, ticks (100.0, t=0.2), (101.0, t=1.5),
(99.5, t=4.9), (102.0, t=5.1) at base interval 5 produce no candle for the
first three ticks; the fourth closes a candle with open_time 0,
O=100, H=101, L=99.5, C=99.5, tick_count 3, and opens a new building
candle at open_time 5 with O=H=L=C=102 and tick_count 1. -/
theorem c8_candle_formation :
    (run_builder 5 (c8_ticks.take 3) none).1 = [] ∧
    run_builder 5 c8_ticks none =
      ([⟨"S", 0, 100, 101, 199/2, 199/2, 3, 5⟩],
        some ⟨"S", 5, 10, 102, 102, 102, 102, 1⟩) := by
  decide

/-- C6 (counterexample): after the fifteen closes
10,11,10,11,12,11,12,13,12,13,14,13,14,15,14 the seeded `avg_gain` is
9/14, not the 6/14 the claim states, and the seeded RSI is 450/7 ≈ 64.29,
not 100·(6/14)/(6/14+5/14) = 600/11 ≈ 54.55. -/
theorem c6_counterexample :
    (run_indicator "S" c6_closes).avg_gain = some (9/14) ∧
    (run_indicator "S" c6_closes).avg_gain ≠ some (6/14) ∧
    (run_indicator "S" c6_closes).rsi = some (450/7) ∧
    (run_indicator "S" c6_closes).rsi ≠
      some (100 * ((6/14) / (6/14 + 5/14))) := by
  decide

/-- C6 (amended): after those fifteen closes the RSI seed computes
avg_gain = 9/14 and avg_loss = 5/14 (nine +1 deltas, five −1 deltas), so
rsi = 100·(avg_gain/(avg_gain+avg_loss)) = 450/7 ≈ 64.29, and the
observable snapshot value after the 15th update is 64.29. -/
theorem c6_amended :
    (run_indicator "S" c6_closes).avg_gain = some (9/14) ∧
    (run_indicator "S" c6_closes).avg_loss = some (5/14) ∧
    (run_indicator "S" c6_closes).rsi =
      some (100 * ((9/14) / (9/14 + 5/14))) ∧
    (run_indicator "S" c6_closes).to_dict.rsi_14 = some (6429/100) := by
  decide

/-- C1 (counterexample): an evaluation in which both condition sets reach
`min_confirmations = 2` and tie (buy = [ema_cross, ema_trend],
sell = [rsi_reversal, sr_bounce]) emits a BUY signal instead of the "no
signal" the claim requires. -/
theorem c1_counterexample :
    default_signal_config.min_confirmations ≤ buy_tie.length ∧
    default_signal_config.min_confirmations ≤ sell_tie.length ∧
    buy_tie.length = sell_tie.length ∧
    evaluate_decision default_signal_config default_sr_config sr_tie st_tie
      candle_tie snap_tie buffer_tie =
      some ("BUY", buy_tie, compute_avg_range buffer_tie) ∧
    (evaluate default_signal_config default_sr_config sr_tie st_tie
        candle_tie snap_tie buffer_tie 100 "a").1.map Signal.signal_type =
      some "BUY" := by
  decide

/-- C5 (counterexample): the same candle, indicators, buffer and S/R state
evaluated in two runs that differ only in the wall clock (`time.time()`)
and the RNG draw (`uuid.uuid4()`) produce two different `Signal` values —
the published signal sequence is not byte-identical across runs. -/
theorem c5_counterexample :
    (evaluate default_signal_config default_sr_config sr_tie st_tie
        candle_tie snap_tie buffer_tie 100 "a").1.isSome ∧
    (evaluate default_signal_config default_sr_config sr_tie st_tie
        candle_tie snap_tie buffer_tie 200 "b").1.isSome ∧
    (evaluate default_signal_config default_sr_config sr_tie st_tie
        candle_tie snap_tie buffer_tie 100 "a").1 ≠
      (evaluate default_signal_config default_sr_config sr_tie st_tie
        candle_tie snap_tie buffer_tie 200 "b").1 := by
  decide

/-- C4 (counterexample): two consecutive emissions for `R` — the first
confirmed by a 1h candle at t=20000, the second by a 5m candle at t=21000
after the active timeframe changed — are 1000 s apart, which satisfies the
code's cooldown 3·c2.interval = 900 but violates the claimed bound
3·c1.interval = 10800. -/
theorem c4_counterexample :
    (evaluate' default_signal_config default_sr_config st_tie inp_h1).1.isSome ∧
    (evaluate' default_signal_config default_sr_config
        (evaluate' default_signal_config default_sr_config st_tie inp_h1).2
        inp_m5).1.isSome ∧
    inp_m5.candle.timestamp - inp_h1.candle.timestamp <
      (default_signal_config.cooldown_candles : ℚ) * inp_h1.candle.interval := by
  decide

/-- C1 (amended): in the direction step the BUY branch is checked first
and wins whenever `|buy_set| ≥ min_confirmations`, regardless of the sell
count — ties and both-sides-satisfying evaluations resolve to BUY, not to
"no signal"; SELL is chosen only when the buy set falls short and the sell
set reaches the threshold; otherwise no direction is chosen. -/
theorem c1_amended (min_confirmations : ℕ)
    (buy_conditions sell_conditions : List String) :
    (min_confirmations ≤ buy_conditions.length →
      choose_direction min_confirmations buy_conditions sell_conditions =
        some ("BUY", buy_conditions)) ∧
    (buy_conditions.length < min_confirmations →
      min_confirmations ≤ sell_conditions.length →
      choose_direction min_confirmations buy_conditions sell_conditions =
        some ("SELL", sell_conditions)) ∧
    (buy_conditions.length < min_confirmations →
      sell_conditions.length < min_confirmations →
      choose_direction min_confirmations buy_conditions sell_conditions =
        none) := by
  unfold choose_direction
  refine ⟨fun hb => ?_, fun hb hs => ?_, fun hb hs => ?_⟩ <;>
    split_ifs <;> first | rfl | omega

/-- Witness for C1 (amended), at the tie evaluation of the
counterexample: two buy tags beat two sell tags. -/
theorem c1_amended_witness :
    choose_direction 2 [COND_EMA_CROSS, COND_EMA_TREND]
      [COND_RSI_REVERSAL, COND_SR_BOUNCE] =
      some ("BUY", [COND_EMA_CROSS, COND_EMA_TREND]) :=
  (c1_amended 2 [COND_EMA_CROSS, COND_EMA_TREND]
    [COND_RSI_REVERSAL, COND_SR_BOUNCE]).1 (by decide)

/-- C2: for a tick evaluated against an OPEN trade the termination checks
run strictly in the order expiry, stop loss, take profit: an expired trade
closes EXPIRED whatever the price; a non-expired trade whose tick
satisfies the SL condition closes LOSS even when the TP condition holds
simultaneously — never PROFIT. -/
theorem c2_expiry_sl_tp_order (st : TradeState) (symbol : String)
    (trade : SimulatedTrade) (price timestamp : ℚ)
    (hact : st.active symbol = some trade)
    (hopen : trade.status = TradeStatus.OPEN) :
    (trade.max_duration_seconds ≤ timestamp - trade.open_timestamp →
      (evaluate_tick st symbol price timestamp).1 =
        some (trade.close price .EXPIRED timestamp)) ∧
    (timestamp - trade.open_timestamp < trade.max_duration_seconds →
      sl_hit trade price →
      (evaluate_tick st symbol price timestamp).1 =
        some (trade.close price .LOSS timestamp)) ∧
    (timestamp - trade.open_timestamp < trade.max_duration_seconds →
      sl_hit trade price → tp_hit trade price →
      (evaluate_tick st symbol price timestamp).1.map
          SimulatedTrade.status = some TradeStatus.LOSS ∧
      (evaluate_tick st symbol price timestamp).1.map
          SimulatedTrade.status ≠ some TradeStatus.PROFIT) := by
  have hloss : timestamp - trade.open_timestamp < trade.max_duration_seconds →
      sl_hit trade price →
      (evaluate_tick st symbol price timestamp).1 =
        some (trade.close price .LOSS timestamp) := by
    intro hnexp hsl
    have hnle := not_le.mpr hnexp
    rcases hsl with ⟨hb, hle⟩ | ⟨hs, hle⟩
    · simp [evaluate_tick, hact, hopen, hnle, hb, hle]
    · simp [evaluate_tick, hact, hopen, hnle, hs, hle]
  refine ⟨fun hexp => ?_, hloss, fun hnexp hsl _ => ?_⟩
  · simp [evaluate_tick, hact, hopen, hexp]
  · rw [hloss hnexp hsl]
    refine ⟨rfl, ?_⟩
    simp [SimulatedTrade.close]

/-- Witness for C2 at the trade `trade_both` (BUY, SL 100 above TP 90):
the tick at price 95 satisfies both the SL and the TP condition, the trade
is far from expiry, and the evaluation closes it as LOSS. -/
theorem c2_witness :
    sl_hit trade_both 95 ∧ tp_hit trade_both 95 ∧
    (evaluate_tick st_both "R" 95 10).1 =
      some (trade_both.close 95 .LOSS 10) ∧
    (trade_both.close 95 .LOSS 10).status = TradeStatus.LOSS := by
  have h := c2_expiry_sl_tp_order st_both "R" trade_both 95 10 (by decide)
    (by decide)
  exact ⟨by decide, by decide, h.2.1 (by decide) (by decide), by decide⟩

/-- C10: whenever the engine's stored previous snapshot for the evaluated
candle's symbol is absent or carries a null `ema_9` — in particular on the
very first evaluation for the symbol — `evaluate` only records the current
snapshot as the new previous one and returns no signal, so a signal can
appear at the earliest on the second consecutive evaluation with fully
non-null indicators. -/
theorem c10_first_full_evaluation (cfg : SignalConfig) (srcfg : SRConfig)
    (sr : SRState) (st : EngineState) (candle : Candle)
    (inds : IndicatorSnapshot) (buffer : List Candle) (now : ℚ)
    (fresh_id : String)
    (hprev : st.prev_indicators candle.symbol = none ∨
      ∃ p, st.prev_indicators candle.symbol = some p ∧ p.ema_9 = none) :
    (evaluate cfg srcfg sr st candle inds buffer now fresh_id).1 = none ∧
    (evaluate cfg srcfg sr st candle inds buffer now fresh_id).2 =
      record_prev st candle.symbol inds := by
  have hdec : evaluate_decision cfg srcfg sr st candle inds buffer = none := by
    unfold evaluate_decision
    rcases h9 : inds.ema_9 with _ | e9 <;>
      rcases h21 : inds.ema_21 with _ | e21 <;>
      rcases h14 : inds.rsi_14 with _ | r14 <;> simp only
    rcases hprev with hp | ⟨p, hp, hpe⟩
    · rw [hp]
    · rw [hp]; simp [hpe]
  unfold evaluate
  rw [hdec]
  exact ⟨rfl, rfl⟩

/-- Witness for C10: the first evaluation for `R` from the fresh engine
state, with a fully non-null snapshot, emits nothing (the same market
inputs do emit once a previous snapshot is stored — see the C1
counterexample). -/
theorem c10_witness :
    (evaluate default_signal_config default_sr_config sr_tie
      init_engine_state candle_tie snap_tie buffer_tie 100 "a").1 = none :=
  (c10_first_full_evaluation default_signal_config default_sr_config sr_tie
    init_engine_state candle_tie snap_tie buffer_tie 100 "a"
    (Or.inl rfl)).1

/-- C5 (amended): feeding the engine the same candle, indicator snapshot,
buffer and S/R state in two runs that differ only in the wall clock and
the RNG draw yields the same emission decision and signals that agree on
every field except `id` (the `uuid4` draw) and `timestamp` (the
`time.time()` reading); the cooldown record and previous-snapshot state
also agree, so the whole decision pipeline is deterministic and the only
run-to-run differences in the published stream are those two fields.
(Candles and indicator snapshots are deterministic outright: `run_builder`
and `run_indicator` take no clock or RNG input at all.) -/
theorem c5_deterministic_modulo_id_time (cfg : SignalConfig)
    (srcfg : SRConfig) (sr : SRState) (st : EngineState) (candle : Candle)
    (inds : IndicatorSnapshot) (buffer : List Candle) (now₁ now₂ : ℚ)
    (id₁ id₂ : String) :
    ((evaluate cfg srcfg sr st candle inds buffer now₁ id₁).1.isSome =
      (evaluate cfg srcfg sr st candle inds buffer now₂ id₂).1.isSome) ∧
    ((evaluate cfg srcfg sr st candle inds buffer now₁ id₁).1.map
        Signal.symbol =
      (evaluate cfg srcfg sr st candle inds buffer now₂ id₂).1.map
        Signal.symbol) ∧
    ((evaluate cfg srcfg sr st candle inds buffer now₁ id₁).1.map
        Signal.signal_type =
      (evaluate cfg srcfg sr st candle inds buffer now₂ id₂).1.map
        Signal.signal_type) ∧
    ((evaluate cfg srcfg sr st candle inds buffer now₁ id₁).1.map
        Signal.entry =
      (evaluate cfg srcfg sr st candle inds buffer now₂ id₂).1.map
        Signal.entry) ∧
    ((evaluate cfg srcfg sr st candle inds buffer now₁ id₁).1.map
        Signal.stop_loss =
      (evaluate cfg srcfg sr st candle inds buffer now₂ id₂).1.map
        Signal.stop_loss) ∧
    ((evaluate cfg srcfg sr st candle inds buffer now₁ id₁).1.map
        Signal.take_profit =
      (evaluate cfg srcfg sr st candle inds buffer now₂ id₂).1.map
        Signal.take_profit) ∧
    ((evaluate cfg srcfg sr st candle inds buffer now₁ id₁).1.map
        Signal.rr =
      (evaluate cfg srcfg sr st candle inds buffer now₂ id₂).1.map
        Signal.rr) ∧
    ((evaluate cfg srcfg sr st candle inds buffer now₁ id₁).1.map
        Signal.candle_timestamp =
      (evaluate cfg srcfg sr st candle inds buffer now₂ id₂).1.map
        Signal.candle_timestamp) ∧
    ((evaluate cfg srcfg sr st candle inds buffer now₁ id₁).1.map
        Signal.conditions =
      (evaluate cfg srcfg sr st candle inds buffer now₂ id₂).1.map
        Signal.conditions) ∧
    ((evaluate cfg srcfg sr st candle inds buffer now₁ id₁).1.map
        Signal.confidence =
      (evaluate cfg srcfg sr st candle inds buffer now₂ id₂).1.map
        Signal.confidence) ∧
    ((evaluate cfg srcfg sr st candle inds buffer now₁ id₁).1.map
        Signal.estimated_duration =
      (evaluate cfg srcfg sr st candle inds buffer now₂ id₂).1.map
        Signal.estimated_duration) ∧
    ((evaluate cfg srcfg sr st candle inds buffer now₁ id₁).2.prev_indicators =
      (evaluate cfg srcfg sr st candle inds buffer now₂ id₂).2.prev_indicators) ∧
    ((evaluate cfg srcfg sr st candle inds buffer now₁ id₁).2.last_signal_ts =
      (evaluate cfg srcfg sr st candle inds buffer now₂ id₂).2.last_signal_ts) := by
  unfold evaluate compute_risk_and_generate
  cases hdec : evaluate_decision cfg srcfg sr st candle inds buffer with
  | none => simp
  | some d =>
    obtain ⟨ty, conds, ar⟩ := d
    cases hrp : risk_params cfg sr candle ty ar with
    | none => simp [hrp]
    | some p => simp [hrp, push_recent, record_prev]

/-- A successful decision implies the cooldown guard passed: the candle's
timestamp is at least `cooldown_candles · candle.interval` past the
recorded last-signal timestamp. -/
theorem evaluate_decision_cooldown (cfg : SignalConfig) (srcfg : SRConfig)
    (sr : SRState) (st : EngineState) (candle : Candle)
    (inds : IndicatorSnapshot) (buffer : List Candle)
    (d : String × List String × ℚ)
    (h : evaluate_decision cfg srcfg sr st candle inds buffer = some d) :
    (cfg.cooldown_candles : ℚ) * candle.interval ≤
      candle.timestamp - (st.last_signal_ts candle.symbol).getD 0 := by
  by_contra hnle
  rw [not_le] at hnle
  have hnone : evaluate_decision cfg srcfg sr st candle inds buffer = none := by
    unfold evaluate_decision
    rcases h9 : inds.ema_9 with _ | e9 <;>
      rcases h21 : inds.ema_21 with _ | e21 <;>
      rcases h14 : inds.rsi_14 with _ | r14 <;> simp only
    rcases hp : st.prev_indicators candle.symbol with _ | prev
    · rfl
    · simp [hnle]
  rw [hnone] at h
  cases h

/-- An emission implies a successful decision. -/
theorem evaluate_isSome_decision (cfg : SignalConfig) (srcfg : SRConfig)
    (sr : SRState) (st : EngineState) (candle : Candle)
    (inds : IndicatorSnapshot) (buffer : List Candle) (now : ℚ)
    (fresh_id : String)
    (h : (evaluate cfg srcfg sr st candle inds buffer now fresh_id).1.isSome) :
    ∃ d, evaluate_decision cfg srcfg sr st candle inds buffer = some d := by
  unfold evaluate at h
  cases hdec : evaluate_decision cfg srcfg sr st candle inds buffer with
  | none => simp [hdec] at h
  | some d => exact ⟨d, rfl⟩

/-- On emission the engine records the confirming candle's timestamp in
`_last_signal_ts[symbol]`. -/
theorem evaluate_some_last_ts (cfg : SignalConfig) (srcfg : SRConfig)
    (sr : SRState) (st : EngineState) (candle : Candle)
    (inds : IndicatorSnapshot) (buffer : List Candle) (now : ℚ)
    (fresh_id : String)
    (h : (evaluate cfg srcfg sr st candle inds buffer now fresh_id).1.isSome) :
    (evaluate cfg srcfg sr st candle inds buffer now fresh_id).2.last_signal_ts
      candle.symbol = some candle.timestamp := by
  unfold evaluate at h ⊢
  cases hdec : evaluate_decision cfg srcfg sr st candle inds buffer with
  | none => simp [hdec] at h
  | some d =>
    obtain ⟨ty, conds, ar⟩ := d
    simp only [hdec] at h
    cases hr : compute_risk_and_generate cfg sr candle ty conds
        candle.symbol ar now fresh_id with
    | none => simp [hr] at h
    | some s => simp [hr, push_recent]

/-- A non-emitting evaluation leaves `_last_signal_ts` untouched. -/
theorem evaluate_none_last_ts (cfg : SignalConfig) (srcfg : SRConfig)
    (sr : SRState) (st : EngineState) (candle : Candle)
    (inds : IndicatorSnapshot) (buffer : List Candle) (now : ℚ)
    (fresh_id : String)
    (h : (evaluate cfg srcfg sr st candle inds buffer now fresh_id).1 = none) :
    (evaluate cfg srcfg sr st candle inds buffer now fresh_id).2.last_signal_ts
      = st.last_signal_ts := by
  unfold evaluate at h ⊢
  cases hdec : evaluate_decision cfg srcfg sr st candle inds buffer with
  | none => rfl
  | some d =>
    obtain ⟨ty, conds, ar⟩ := d
    simp only [hdec] at h
    cases hr : compute_risk_and_generate cfg sr candle ty conds
        candle.symbol ar now fresh_id with
    | none => simp [hr, record_prev]
    | some s => simp [hr] at h

/-- A run of evaluations none of which emitted leaves `_last_signal_ts`
untouched. -/
theorem run_outputs_none_last_ts (cfg : SignalConfig) (srcfg : SRConfig) :
    ∀ (inputs : List EvalInput) (st : EngineState),
      (∀ o ∈ (run_outputs cfg srcfg st inputs).1, o = none) →
      (run_outputs cfg srcfg st inputs).2.last_signal_ts =
        st.last_signal_ts := by
  intro inputs
  induction inputs with
  | nil => intro st _; rfl
  | cons inp rest ih =>
    intro st hall
    have h0 : (evaluate' cfg srcfg st inp).1 = none := by
      refine hall _ ?_
      simp only [run_outputs]
      exact List.mem_cons_self _ _
    have hrest : ∀ o ∈ (run_outputs cfg srcfg
        (evaluate' cfg srcfg st inp).2 rest).1, o = none := by
      intro o ho
      refine hall o ?_
      simp only [run_outputs]
      exact List.mem_cons_of_mem _ ho
    calc (run_outputs cfg srcfg st (inp :: rest)).2.last_signal_ts
        = (run_outputs cfg srcfg (evaluate' cfg srcfg st inp).2
            rest).2.last_signal_ts := by simp only [run_outputs]
      _ = (evaluate' cfg srcfg st inp).2.last_signal_ts := ih _ hrest
      _ = st.last_signal_ts :=
          evaluate_none_last_ts cfg srcfg inp.sr st inp.candle inp.inds
            inp.buffer inp.now inp.fresh_id h0

/-- C4 (amended): for two signals emitted consecutively for the same
symbol — a first emission at candle c1, then any number of non-emitting
evaluations, then a second emission at candle c2 — the engine guarantees
`c2.timestamp − c1.timestamp ≥ cooldown_candles · c2.interval`: the
cooldown window is measured with the interval of the *later* confirming
candle (the candle under evaluation), not with c1's interval as claimed;
the two coincide whenever the active timeframe did not change in
between.  The engine records c1's timestamp on the first emission, every
non-emitting evaluation preserves that record, and the second emission
must clear the cooldown guard against it. -/
theorem c4_cooldown_uses_second_interval (cfg : SignalConfig)
    (srcfg : SRConfig) (st0 : EngineState) (inp1 : EvalInput)
    (mids : List EvalInput) (inp2 : EvalInput)
    (hsym : inp2.candle.symbol = inp1.candle.symbol)
    (h1 : (evaluate' cfg srcfg st0 inp1).1.isSome)
    (hmids : ∀ o ∈ (run_outputs cfg srcfg
        (evaluate' cfg srcfg st0 inp1).2 mids).1, o = none)
    (h2 : (evaluate' cfg srcfg
        (run_outputs cfg srcfg (evaluate' cfg srcfg st0 inp1).2 mids).2
        inp2).1.isSome) :
    (cfg.cooldown_candles : ℚ) * inp2.candle.interval ≤
      inp2.candle.timestamp - inp1.candle.timestamp := by
  set st1 := (evaluate' cfg srcfg st0 inp1).2 with hst1
  set stm := (run_outputs cfg srcfg st1 mids).2 with hstm
  have hrec : st1.last_signal_ts inp1.candle.symbol =
      some inp1.candle.timestamp :=
    evaluate_some_last_ts cfg srcfg inp1.sr st0 inp1.candle inp1.inds
      inp1.buffer inp1.now inp1.fresh_id h1
  have hpres : stm.last_signal_ts = st1.last_signal_ts :=
    run_outputs_none_last_ts cfg srcfg mids st1 hmids
  obtain ⟨d, hd⟩ := evaluate_isSome_decision cfg srcfg inp2.sr stm
    inp2.candle inp2.inds inp2.buffer inp2.now inp2.fresh_id h2
  have hcool := evaluate_decision_cooldown cfg srcfg inp2.sr stm
    inp2.candle inp2.inds inp2.buffer d hd
  rw [hpres, hsym, hrec] at hcool
  simpa using hcool

/-- Witness for C4 (amended) on the concrete cooldown trace: the 5m
emission at t=21000 follows the 1h emission at t=20000 by 1000 s ≥
3·300 s. -/
theorem c4_witness :
    (default_signal_config.cooldown_candles : ℚ) * inp_m5.candle.interval ≤
      inp_m5.candle.timestamp - inp_h1.candle.timestamp := by
  have h := c4_cooldown_uses_second_interval default_signal_config
    default_sr_config st_tie inp_h1 [] inp_m5 rfl (by decide)
    (by intro o ho; simp [run_outputs] at ho) (by decide)
  exact h

/-- Post-warm-up, `IndicatorService.update` takes the steady-state branch:
EMA fast, EMA slow and RSI update in order, and `prev_close` is set. -/
theorem indicator_update_steady (st : SymbolIndicatorState) (close : ℚ)
    (hw : MIN_WARMUP ≤ st.warmup_count) (hbuf : st.warmup_closes = []) :
    (indicator_update st close).1 =
      { update_rsi (update_ema_slow (update_ema_fast
          { st with warmup_count := st.warmup_count + 1 } close) close) close
        with prev_close := some close } := by
  have hw' : MIN_WARMUP ≤ st.warmup_count + 1 := by omega
  simp [indicator_update, SymbolIndicatorState.is_warmed_up, hbuf, hw']

/-- `_compute_rsi` is invariant under a positive rescaling of both
averages (the edge cases map to each other because scaling by a nonzero
factor preserves zeroness). -/
theorem compute_rsi_scale (c g l : ℚ) (hc : 0 < c) :
    compute_rsi (c * g) (c * l) = compute_rsi g l := by
  have hc' : c ≠ 0 := ne_of_gt hc
  unfold compute_rsi
  by_cases hg : g = 0 <;> by_cases hl0 : l = 0
  · simp [hg, hl0]
  · simp [hg, hl0, hc']
  · simp [hg, hl0, hc', mul_eq_zero]
  · have h1 : ¬ (c * g = 0 ∧ c * l = 0) := by
      rintro ⟨h, -⟩
      exact hg ((mul_eq_zero.mp h).resolve_left hc')
    have h2 : ¬ (g = 0 ∧ l = 0) := by rintro ⟨h, -⟩; exact hg h
    have h3 : c * l ≠ 0 := mul_ne_zero hc' hl0
    have h4 : c * g ≠ 0 := mul_ne_zero hc' hg
    rw [if_neg h1, if_neg h2, if_neg h3, if_neg hl0, if_neg h4, if_neg hg,
      mul_div_mul_left g l hc']

/-- C7 (amended): after warm-up, an identical close `C` moves each EMA
strictly toward `C` — the new value lies strictly between the old value
and `C` (and equals `C` once reached) — but the RSI does *not* converge
to 50: the zero delta rescales `avg_gain` and `avg_loss` by the common
factor 13/14, so their ratio and hence the RSI are left exactly
unchanged; the RSI stays at its previous value indefinitely (it is 50
only if it already was). -/
theorem c7_ema_monotone_rsi_constant (st : SymbolIndicatorState)
    (C ef es g l : ℚ)
    (hw : MIN_WARMUP ≤ st.warmup_count) (hbuf : st.warmup_closes = [])
    (hef : st.ema_fast = some ef) (hes : st.ema_slow = some es)
    (hg : st.avg_gain = some g) (hl : st.avg_loss = some l)
    (hpc : st.prev_close = some C) (hrsi : st.rsi = some (compute_rsi g l)) :
    ((indicator_update st C).1.ema_fast =
        some (C * alpha_fast + ef * (1 - alpha_fast)) ∧
      (ef < C → ef < C * alpha_fast + ef * (1 - alpha_fast) ∧
        C * alpha_fast + ef * (1 - alpha_fast) < C) ∧
      (C < ef → C < C * alpha_fast + ef * (1 - alpha_fast) ∧
        C * alpha_fast + ef * (1 - alpha_fast) < ef) ∧
      (ef = C → C * alpha_fast + ef * (1 - alpha_fast) = C)) ∧
    ((indicator_update st C).1.ema_slow =
        some (C * alpha_slow + es * (1 - alpha_slow)) ∧
      (es < C → es < C * alpha_slow + es * (1 - alpha_slow) ∧
        C * alpha_slow + es * (1 - alpha_slow) < C) ∧
      (C < es → C < C * alpha_slow + es * (1 - alpha_slow) ∧
        C * alpha_slow + es * (1 - alpha_slow) < es) ∧
      (es = C → C * alpha_slow + es * (1 - alpha_slow) = C)) ∧
    ((indicator_update st C).1.rsi = st.rsi) := by
  rw [indicator_update_steady st C hw hbuf]
  have hstep : ∀ x : ℚ, x * (13:ℚ) / 14 = (13/14) * x := by
    intro x; ring
  refine ⟨⟨?_, fun h => ⟨by unfold alpha_fast; linarith,
      by unfold alpha_fast; linarith⟩,
    fun h => ⟨by unfold alpha_fast; linarith, by unfold alpha_fast; linarith⟩,
    fun h => by rw [h]; ring⟩,
    ⟨?_, fun h => ⟨by unfold alpha_slow; linarith,
      by unfold alpha_slow; linarith⟩,
    fun h => ⟨by unfold alpha_slow; linarith, by unfold alpha_slow; linarith⟩,
    fun h => by rw [h]; ring⟩, ?_⟩
  · simp [update_rsi, update_ema_slow, update_ema_fast, hef, hes, hg, hl, hpc]
  · simp [update_rsi, update_ema_slow, update_ema_fast, hef, hes, hg, hl, hpc]
  · simp only [update_ema_fast, update_ema_slow, update_rsi, hef, hes, hg,
      hl, hpc]
    simp only [sub_self]
    norm_num [RSI_PERIOD]
    rw [hstep g, hstep l, compute_rsi_scale (13/14) g l (by norm_num), hrsi]

/-- Witness for C7 (amended) at the state `st_c7` (EMAs at 10, averages
2 and 1, last close 12): one more close at 12 moves EMA9 to 10.4, strictly
between 10 and 12, and leaves the RSI where it was. -/
theorem c7_witness :
    (indicator_update st_c7 12).1.ema_fast =
      some (12 * alpha_fast + 10 * (1 - alpha_fast)) ∧
    (10 < 12 * alpha_fast + 10 * (1 - alpha_fast) ∧
      12 * alpha_fast + 10 * (1 - alpha_fast) < 12) ∧
    (indicator_update st_c7 12).1.rsi = st_c7.rsi := by
  have h := c7_ema_monotone_rsi_constant st_c7 12 10 10 2 1 (by decide) rfl
    rfl rfl rfl rfl rfl rfl
  exact ⟨h.1.1, h.1.2.1 (by norm_num), h.2.2⟩

/-- The two EMA updates leave the RSI-related fields and the warm-up
bookkeeping untouched. -/
theorem ema_updates_preserve (st : SymbolIndicatorState) (c : ℚ) :
    (update_ema_slow (update_ema_fast st c) c).avg_gain = st.avg_gain ∧
    (update_ema_slow (update_ema_fast st c) c).avg_loss = st.avg_loss ∧
    (update_ema_slow (update_ema_fast st c) c).prev_close = st.prev_close ∧
    (update_ema_slow (update_ema_fast st c) c).warmup_closes =
      st.warmup_closes ∧
    (update_ema_slow (update_ema_fast st c) c).warmup_count =
      st.warmup_count := by
  unfold update_ema_fast update_ema_slow
  rcases h1 : st.ema_fast with _ | e <;>
    rcases h2 : st.ema_slow with _ | e' <;> simp [h1, h2]

/-- `_update_rsi` with all three inputs present, as one equation. -/
theorem update_rsi_known (st : SymbolIndicatorState) (close g l pc : ℚ)
    (hg : st.avg_gain = some g) (hl : st.avg_loss = some l)
    (hpc : st.prev_close = some pc) :
    update_rsi st close =
      { st with
        avg_gain := some ((g * ((RSI_PERIOD : ℚ) - 1) +
          (if 0 < close - pc then close - pc else 0)) / (RSI_PERIOD : ℚ)),
        avg_loss := some ((l * ((RSI_PERIOD : ℚ) - 1) +
          (if close - pc < 0 then -(close - pc) else 0)) / (RSI_PERIOD : ℚ)),
        rsi := some (compute_rsi
          ((g * ((RSI_PERIOD : ℚ) - 1) +
            (if 0 < close - pc then close - pc else 0)) / (RSI_PERIOD : ℚ))
          ((l * ((RSI_PERIOD : ℚ) - 1) +
            (if close - pc < 0 then -(close - pc) else 0)) / (RSI_PERIOD : ℚ))) } := by
  unfold update_rsi
  rw [hg, hl, hpc]

/-- C7 (counterexample): from the reachable warmed-up state `st_c7`
(avg_gain 2, avg_loss 1, RSI 200/3 ≈ 66.7), every further run of identical
closes leaves the RSI at exactly 200/3 — it never approaches 50, refuting
"rsi converges to 50 as the number of identical closes grows". -/
theorem c7_counterexample :
    (∀ k, (c7_iter k).rsi = some (200/3)) ∧ ((200:ℚ)/3 ≠ 50) ∧
    (∀ k, (c7_iter k).rsi ≠ some 50) := by
  have hrsi21 : ∀ c : ℚ, 0 < c → compute_rsi (c * 2) c = 200/3 := by
    intro c hc
    have hc' : c ≠ 0 := ne_of_gt hc
    have h2 : c * 2 ≠ 0 := mul_ne_zero hc' two_ne_zero
    have hdiv : c * 2 / c = 2 := by
      rw [mul_comm, mul_div_assoc, div_self hc', mul_one]
    unfold compute_rsi
    rw [if_neg (by rintro ⟨h, -⟩; exact h2 h), if_neg hc', if_neg h2, hdiv]
    norm_num
  have key : ∀ k, ∃ c : ℚ, 0 < c ∧
      (c7_iter k).avg_gain = some (c * 2) ∧
      (c7_iter k).avg_loss = some c ∧
      (c7_iter k).rsi = some (200/3) ∧
      (c7_iter k).prev_close = some 12 ∧
      (c7_iter k).warmup_closes = [] ∧
      MIN_WARMUP ≤ (c7_iter k).warmup_count := by
    intro k
    induction k with
    | zero =>
      refine ⟨1, by norm_num, ?_, rfl, ?_, rfl, rfl, by decide⟩
      · show st_c7.avg_gain = some (1 * 2)
        norm_num [st_c7]
      · show st_c7.rsi = some (200/3)
        norm_num [st_c7, compute_rsi]
    | succ k ih =>
      obtain ⟨c, hc, hg, hl, hrsi, hpc, hbuf, hw⟩ := ih
      have hiter : c7_iter (k + 1) = (indicator_update (c7_iter k) 12).1 := by
        unfold c7_iter
        rw [Function.iterate_succ_apply']
      have hsteady := indicator_update_steady (c7_iter k) 12 hw hbuf
      have hpre := ema_updates_preserve
        { c7_iter k with warmup_count := (c7_iter k).warmup_count + 1 } 12
      have hg2 := hpre.1.trans hg
      have hl2 := hpre.2.1.trans hl
      have hpc2 := hpre.2.2.1.trans hpc
      have hbuf2 := hpre.2.2.2.1.trans hbuf
      have hcnt2 : (update_ema_slow (update_ema_fast
          { c7_iter k with warmup_count := (c7_iter k).warmup_count + 1 } 12)
          12).warmup_count = (c7_iter k).warmup_count + 1 := hpre.2.2.2.2
      have hrsiupd := update_rsi_known _ 12 (c * 2) c 12 hg2 hl2 hpc2
      have havg : ∀ x : ℚ, (x * ((RSI_PERIOD : ℚ) - 1) +
          (if 0 < (12:ℚ) - 12 then (12:ℚ) - 12 else 0)) / (RSI_PERIOD : ℚ) =
          13/14 * x := by
        intro x
        norm_num [RSI_PERIOD]
        ring
      have havg2 : ∀ x : ℚ, (x * ((RSI_PERIOD : ℚ) - 1) +
          (if (12:ℚ) - 12 < 0 then -((12:ℚ) - 12) else 0)) / (RSI_PERIOD : ℚ) =
          13/14 * x := by
        intro x
        norm_num [RSI_PERIOD]
        ring
      refine ⟨13/14 * c, by positivity, ?_, ?_, ?_, ?_, ?_, ?_⟩
      · rw [hiter, hsteady]
        show (update_rsi _ 12).avg_gain = some (13/14 * c * 2)
        rw [hrsiupd]
        show some ((c * 2 * ((RSI_PERIOD : ℚ) - 1) +
          (if 0 < (12:ℚ) - 12 then (12:ℚ) - 12 else 0)) / (RSI_PERIOD : ℚ)) =
          some (13/14 * c * 2)
        rw [havg (c * 2), mul_assoc]
      · rw [hiter, hsteady]
        show (update_rsi _ 12).avg_loss = some (13/14 * c)
        rw [hrsiupd]
        show some ((c * ((RSI_PERIOD : ℚ) - 1) +
          (if (12:ℚ) - 12 < 0 then -((12:ℚ) - 12) else 0)) / (RSI_PERIOD : ℚ)) =
          some (13/14 * c)
        rw [havg2 c]
      · rw [hiter, hsteady]
        show (update_rsi _ 12).rsi = some (200/3)
        rw [hrsiupd]
        show some (compute_rsi
          ((c * 2 * ((RSI_PERIOD : ℚ) - 1) +
            (if 0 < (12:ℚ) - 12 then (12:ℚ) - 12 else 0)) / (RSI_PERIOD : ℚ))
          ((c * ((RSI_PERIOD : ℚ) - 1) +
            (if (12:ℚ) - 12 < 0 then -((12:ℚ) - 12) else 0)) /
              (RSI_PERIOD : ℚ))) = some (200/3)
        rw [havg (c * 2), havg2 c,
          compute_rsi_scale (13/14) (c * 2) c (by norm_num), hrsi21 c hc]
      · rw [hiter, hsteady]
      · rw [hiter, hsteady]
        show (update_rsi _ 12).warmup_closes = []
        rw [hrsiupd]
        exact hbuf2
      · rw [hiter, hsteady]
        show MIN_WARMUP ≤ (update_rsi _ 12).warmup_count
        rw [hrsiupd]
        show MIN_WARMUP ≤ (update_ema_slow (update_ema_fast
          { c7_iter k with warmup_count := (c7_iter k).warmup_count + 1 } 12)
          12).warmup_count
        rw [hcnt2]
        omega
  refine ⟨fun k => ((key k).choose_spec).2.2.2.1, by norm_num, fun k => ?_⟩
  rw [((key k).choose_spec).2.2.2.1]
  intro h
  rw [Option.some_inj] at h
  norm_num at h

/-- `open_trade` never touches the closed history. -/
theorem open_trade_closed (st : TradeState) (s : Signal) (fresh_id : String)
    (max_dur : ℚ) : ((open_trade st s fresh_id max_dur).2).closed =
      st.closed := by
  simp only [open_trade, register_trade, mk_trade]
  split_ifs <;> rfl

/-- `SimulatedTrade.close` stamps exactly the requested status. -/
theorem close_status (t : SimulatedTrade) (p : ℚ) (s : TradeStatus)
    (ts : ℚ) : (t.close p s ts).status = s := rfl

/-- `archive_trade` preserves terminality of the closed history when the
archived trade is terminal. -/
theorem archive_trade_terminal (st : TradeState) (t : SimulatedTrade)
    (h : closed_terminal st) (ht : t.status.is_closed = true) :
    closed_terminal (archive_trade st t) := by
  intro sym x hx
  unfold archive_trade at hx
  simp only at hx
  by_cases hs : sym = t.symbol
  · rw [if_pos hs] at hx
    have hx' : x ∈ st.closed sym ++ [t] := List.drop_subset _ _ hx
    rcases List.mem_append.mp hx' with h1 | h2
    · exact h sym x h1
    · rw [List.mem_singleton] at h2
      subst h2
      exact ht
  · rw [if_neg hs] at hx
    exact h sym x hx

/-- `evaluate_tick` only ever adds terminal trades to the history. -/
theorem evaluate_tick_closed_terminal (st : TradeState) (sym : String)
    (price ts : ℚ) (h : closed_terminal st) :
    closed_terminal (evaluate_tick st sym price ts).2 := by
  unfold evaluate_tick
  cases hact : st.active sym with
  | none => exact h
  | some trade =>
    by_cases hp : trade.status = TradeStatus.PENDING
    · simp only [hp, if_pos]
      exact h
    · by_cases ho : trade.status = TradeStatus.OPEN
      · simp only [hp, ho, if_false, if_true]
        split_ifs <;>
          first
            | exact archive_trade_terminal st _ h (by rw [close_status]; rfl)
            | exact h
      · simp only [hp, ho, if_false]
        exact h

/-- Every reachable trade state has an all-terminal closed history. -/
theorem run_ops_closed_terminal (max_dur : ℚ) (ops : List TradeOp) :
    closed_terminal (run_ops max_dur ops) := by
  suffices hgen : ∀ (ops : List TradeOp) (st : TradeState),
      closed_terminal st →
      closed_terminal (ops.foldl (apply_op max_dur) st) by
    refine hgen ops init_trade_state ?_
    intro sym t ht
    simp [init_trade_state] at ht
  intro ops
  induction ops with
  | nil => intro st h; exact h
  | cons op rest ih =>
    intro st h
    rw [List.foldl_cons]
    refine ih _ ?_
    cases op with
    | open_from_signal s fid =>
      intro sym t ht
      rw [show apply_op max_dur st (TradeOp.open_from_signal s fid) =
        (open_trade st s fid max_dur).2 from rfl] at ht
      rw [open_trade_closed] at ht
      exact h sym t ht
    | tick sym price timestamp =>
      exact evaluate_tick_closed_terminal st sym price timestamp h

/-- C3: every state of the trade subsystem reachable from the fresh
manager through any sequence of `open_trade` and `evaluate_tick`
operations holds, for every symbol, at most one trade whose status is
PENDING or OPEN: the single active slot is the only place such a trade can
live (`open_trade`/`register_trade` refuse a second one while the slot is
occupied), and a trade leaves the slot only by being closed to a terminal
status and archived. -/
theorem c3_at_most_one_active (max_dur : ℚ) (ops : List TradeOp)
    (sym : String) : active_count (run_ops max_dur ops) sym ≤ 1 := by
  have hct := run_ops_closed_terminal max_dur ops
  unfold active_count trades_of
  rw [List.countP_append]
  have h2 : List.countP
      (fun t => decide (t.status = TradeStatus.PENDING ∨
        t.status = TradeStatus.OPEN))
      ((run_ops max_dur ops).closed sym) = 0 := by
    rw [List.countP_eq_zero]
    intro t htm
    have hterm := hct sym t htm
    cases hstat : t.status <;> rw [hstat] at hterm <;>
      simp_all [TradeStatus.is_closed]
  rw [h2]
  cases hact : (run_ops max_dur ops).active sym <;>
    simp [List.countP_cons, List.countP_nil]
  split <;> omega

/-- Per-trade effect of the single-pass loop on the `wins` counter. -/
theorem stats_step_wins (acc : StatsAcc) (t : SimulatedTrade) :
    (stats_step acc t).wins = acc.wins + (if is_win t then 1 else 0) := by
  unfold stats_step is_win
  rcases h : t.status <;>
    by_cases hp : 0 < t.pnl_percent <;>
    by_cases hn : t.pnl_percent < 0 <;>
    first
      | exact absurd (lt_trans hp hn) (lt_irrefl 0)
      | simp [h, hp, hn, apply_ite StatsAcc.wins]

/-- Per-trade effect on the `losses` counter. -/
theorem stats_step_losses (acc : StatsAcc) (t : SimulatedTrade) :
    (stats_step acc t).losses = acc.losses + (if is_loss t then 1 else 0) := by
  unfold stats_step is_loss
  rcases h : t.status <;>
    by_cases hp : 0 < t.pnl_percent <;>
    by_cases hn : t.pnl_percent < 0 <;>
    first
      | exact absurd (lt_trans hp hn) (lt_irrefl 0)
      | simp [h, hp, hn, apply_ite StatsAcc.losses]

/-- Per-trade effect on the `expired` counter. -/
theorem stats_step_expired (acc : StatsAcc) (t : SimulatedTrade) :
    (stats_step acc t).expired = acc.expired +
      (if t.status = TradeStatus.EXPIRED then 1 else 0) := by
  unfold stats_step
  rcases h : t.status <;>
    by_cases hp : 0 < t.pnl_percent <;>
    by_cases hn : t.pnl_percent < 0 <;>
    first
      | exact absurd (lt_trans hp hn) (lt_irrefl 0)
      | simp [h, hp, hn, apply_ite StatsAcc.expired]

/-- The fold accumulates `wins` as a count. -/
theorem stats_fold_wins (ts : List SimulatedTrade) :
    ∀ a : StatsAcc, (ts.foldl stats_step a).wins =
      a.wins + ts.countP is_win := by
  induction ts with
  | nil => intro a; simp
  | cons t ts ih =>
    intro a
    rw [List.foldl_cons, ih, stats_step_wins, List.countP_cons]
    by_cases hw : is_win t <;> simp [hw] <;> omega

/-- The fold accumulates `losses` as a count. -/
theorem stats_fold_losses (ts : List SimulatedTrade) :
    ∀ a : StatsAcc, (ts.foldl stats_step a).losses =
      a.losses + ts.countP is_loss := by
  induction ts with
  | nil => intro a; simp
  | cons t ts ih =>
    intro a
    rw [List.foldl_cons, ih, stats_step_losses, List.countP_cons]
    by_cases hw : is_loss t <;> simp [hw] <;> omega

/-- The fold accumulates `expired` as a count. -/
theorem stats_fold_expired (ts : List SimulatedTrade) :
    ∀ a : StatsAcc, (ts.foldl stats_step a).expired =
      a.expired + ts.countP (fun t => t.status = TradeStatus.EXPIRED) := by
  induction ts with
  | nil => intro a; simp
  | cons t ts ih =>
    intro a
    rw [List.foldl_cons, ih, stats_step_expired, List.countP_cons]
    by_cases hw : t.status = TradeStatus.EXPIRED <;> simp [hw] <;> omega

/-- C9: over any non-empty closed-trade list, `compute` counts an EXPIRED
trade in the `expired` counter and, when its PnL is positive, also in
`wins` (negative PnL adds to `losses`); the returned `win_rate` is
`wins / n · 100` and `loss_rate` is its complement `100 − win_rate`. -/
theorem c9_expired_wins_rates (trades : List SimulatedTrade)
    (h : trades ≠ []) :
    (compute trades).expired =
      trades.countP (fun t => t.status = TradeStatus.EXPIRED) ∧
    (compute trades).wins = trades.countP is_win ∧
    (compute trades).losses = trades.countP is_loss ∧
    (compute trades).win_rate =
      ((compute trades).wins : ℚ) / (trades.length : ℚ) * 100 ∧
    (compute trades).loss_rate = 100 - (compute trades).win_rate := by
  obtain ⟨t, ts, rfl⟩ := List.exists_cons_of_ne_nil h
  have hn : 0 < (t :: ts).length := by simp
  simp only [compute]
  refine ⟨?_, ?_, ?_, ?_, ?_⟩
  · rw [stats_fold_expired]
    simp [stats_acc0]
  · rw [stats_fold_wins]
    simp [stats_acc0]
  · rw [stats_fold_losses]
    simp [stats_acc0]
  · rw [if_pos hn]
  · trivial

/-- Witness for C9 on `c9_trades` (one EXPIRED trade with pnl +0.5, one
LOSS): expired 1, wins 1, losses 1, win_rate 50, loss_rate 50. -/
theorem c9_witness :
    (compute c9_trades).expired = 1 ∧ (compute c9_trades).wins = 1 ∧
    (compute c9_trades).losses = 1 ∧ (compute c9_trades).win_rate = 50 ∧
    (compute c9_trades).loss_rate = 50 := by
  have h := c9_expired_wins_rates c9_trades (by decide)
  refine ⟨?_, ?_, ?_, ?_, ?_⟩
  · rw [h.1]; decide
  · rw [h.2.1]; decide
  · rw [h.2.2.1]; decide
  · rw [h.2.2.2.1, h.2.1]; decide
  · rw [h.2.2.2.2, h.2.2.2.1, h.2.1]; decide

end QuantPulse
